import Mathlib

/- Shallow embedding of the azure-app-onboarding-portal request-lifecycle and
firewall rule engine (src/app), written to check the specification claims
against the code.

Modelling conventions:
* Python strings are Lean `String`s; `str.lower`/`str.upper`/`str.title` are
  modelled over the ASCII range via `Char.toLower`/`Char.toUpper` (the
  repository only manipulates ASCII identifiers, ports and names).  String
  splitting, stripping and number parsing are implemented here by structural
  recursion over the character list so that every embedded operation can be
  evaluated on concrete inputs inside the kernel.
* Python sets are modelled as duplicate-free lists built by membership-guarded
  insertion; they are only ever read after sorting, so insertion order is
  irrelevant exactly as for a Python set.
* The sha256 duplicate keys of the firewall engine are modelled by their
  preimage strings: equality of hashes is modelled as equality of preimages.
* Python `int(s)` is modelled for the digit-only tokens the validators feed
  it (`parseNat?`).
* The relational store is a record of lists (one per table); a SQLAlchemy
  `commit` is a function from store to store, and an operation that performs
  several commits is decomposed into its commit list so that mid-operation
  failures can be analysed. -/

namespace Portal

/-- Decidable equality for `Except`, used to evaluate the embedded operations
on concrete inputs. -/
instance exceptDecEq {ε α : Type} [DecidableEq ε] [DecidableEq α] :
    DecidableEq (Except ε α) := fun a b =>
  match a, b with
  | .error e, .error f =>
    if h : e = f then isTrue (by rw [h])
    else isFalse (fun hh => h (Except.error.inj hh))
  | .error _, .ok _ => isFalse (fun hh => Except.noConfusion hh)
  | .ok _, .error _ => isFalse (fun hh => Except.noConfusion hh)
  | .ok x, .ok y =>
    if h : x = y then isTrue (by rw [h])
    else isFalse (fun hh => h (Except.ok.inj hh))

/-- Whitespace characters removed by Python `str.strip`. -/
def isPySpace (c : Char) : Bool :=
  c = ' ' || c = '\t' || c = '\n' || c = '\r' || c = '\x0b' || c = '\x0c'

/-- Python `str.strip` on a character list. -/
def stripList (l : List Char) : List Char :=
  ((l.dropWhile isPySpace).reverse.dropWhile isPySpace).reverse

/-- Python `str.strip`. -/
def pythonStrip (s : String) : String := String.mk (stripList s.data)

/-- Python `str.split(sep)` for a one-character separator: keeps empty parts,
`"".split(sep) = [""]`. -/
def splitCharAux (sep : Char) (cur : List Char) : List Char → List (List Char)
  | [] => [cur.reverse]
  | c :: cs =>
    if c = sep then cur.reverse :: splitCharAux sep [] cs
    else splitCharAux sep (c :: cur) cs

/-- Python `str.split(sep)` for a one-character separator. -/
def splitChar (sep : Char) (s : String) : List String :=
  (splitCharAux sep [] s.data).map String.mk

/-- Python `str.split(sep, maxsplit=1)` for a one-character separator:
returns the parts before and after the first occurrence, or `none` when the
separator does not occur. -/
def splitOnceChar (sep : Char) : List Char → Option (List Char × List Char)
  | [] => none
  | c :: cs =>
    if c = sep then some ([], cs)
    else
      match splitOnceChar sep cs with
      | some (a, b) => some (c :: a, b)
      | none => none

/-- Python `int(s)` for the stripped digit-only tokens fed to the port
validators (`int` also accepts signs and underscores, which the claims never
exercise and which would fail the subsequent range checks anyway). -/
def parseNat? (l : List Char) : Option Nat :=
  if !l.isEmpty && l.all Char.isDigit then
    some (l.foldl (fun n c => n * 10 + (c.toNat - 48)) 0)
  else none

/-- Decimal digits of a positive number, most significant first; the fuel
argument bounds the recursion and `n` itself is always enough fuel. -/
def natDigits (fuel n : Nat) : List Char :=
  match fuel with
  | 0 => []
  | fuel + 1 =>
    if n = 0 then [] else natDigits fuel (n / 10) ++ [Char.ofNat (48 + n % 10)]

/-- Python `str(n)` for a natural number. -/
def natToString (n : Nat) : String :=
  if n = 0 then "0" else String.mk (natDigits n n)

/-- Lexicographic order on character lists by code point, the order Python
uses to compare strings. -/
def lexLe : List Char → List Char → Bool
  | [], _ => true
  | _ :: _, [] => false
  | a :: as, b :: bs =>
    if a.toNat < b.toNat then true
    else if b.toNat < a.toNat then false
    else lexLe as bs

/-- Python string comparison `a <= b`. -/
def strLeB (a b : String) : Bool := lexLe a.data b.data

theorem lexLe_total : ∀ as bs : List Char, lexLe as bs = true ∨ lexLe bs as = true
  | [], _ => Or.inl rfl
  | _ :: _, [] => Or.inr rfl
  | a :: as, b :: bs => by
    unfold lexLe
    rcases Nat.lt_trichotomy a.toNat b.toNat with h | h | h
    · left; simp [h]
    · have hne : ¬ a.toNat < b.toNat := by omega
      have hne2 : ¬ b.toNat < a.toNat := by omega
      rcases lexLe_total as bs with ih | ih
      · left; simp [hne, hne2, ih]
      · right; simp [hne, hne2, ih]
    · right; simp [h]

theorem lexLe_trans : ∀ as bs cs : List Char,
    lexLe as bs = true → lexLe bs cs = true → lexLe as cs = true
  | [], _, _ => fun _ _ => rfl
  | a :: as, [], _ => by intro hab; exact absurd hab (by simp [lexLe])
  | _ :: _, _ :: _, [] => by intro _ hbc; exact absurd hbc (by simp [lexLe])
  | a :: as, b :: bs, c :: cs => by
    intro hab hbc
    unfold lexLe at hab hbc ⊢
    rcases Nat.lt_trichotomy a.toNat c.toNat with h | h | h
    · simp [h]
    · have h1 : ¬ a.toNat < c.toNat := by omega
      have h2 : ¬ c.toNat < a.toNat := by omega
      rw [if_neg h1, if_neg h2]
      rcases Nat.lt_trichotomy a.toNat b.toNat with hb | hb | hb
      · have e1 : ¬ b.toNat < c.toNat := by omega
        have e2 : c.toNat < b.toNat := by omega
        rw [if_neg e1, if_pos e2] at hbc
        exact absurd hbc (by simp)
      · have e1 : ¬ a.toNat < b.toNat := by omega
        have e2 : ¬ b.toNat < a.toNat := by omega
        rw [if_neg e1, if_neg e2] at hab
        have f1 : ¬ b.toNat < c.toNat := by omega
        have f2 : ¬ c.toNat < b.toNat := by omega
        rw [if_neg f1, if_neg f2] at hbc
        exact lexLe_trans as bs cs hab hbc
      · have e1 : ¬ a.toNat < b.toNat := by omega
        rw [if_neg e1, if_pos hb] at hab
        exact absurd hab (by simp)
    · exfalso
      rcases Nat.lt_trichotomy a.toNat b.toNat with hb | hb | hb
      · rcases Nat.lt_trichotomy b.toNat c.toNat with hc | hc | hc
        · omega
        · omega
        · have e1 : ¬ b.toNat < c.toNat := by omega
          rw [if_neg e1, if_pos hc] at hbc
          exact absurd hbc (by simp)
      · rcases Nat.lt_trichotomy b.toNat c.toNat with hc | hc | hc
        · omega
        · omega
        · have e1 : ¬ b.toNat < c.toNat := by omega
          rw [if_neg e1, if_pos hc] at hbc
          exact absurd hbc (by simp)
      · have e1 : ¬ a.toNat < b.toNat := by omega
        rw [if_neg e1, if_pos hb] at hab
        exact absurd hab (by simp)

instance strLeTotal : IsTotal String (fun a b => strLeB a b = true) :=
  ⟨fun a b => lexLe_total a.data b.data⟩

instance strLeTrans : IsTrans String (fun a b => strLeB a b = true) :=
  ⟨fun a b c => lexLe_trans a.data b.data c.data⟩

/-- Python `sorted` on a list of strings: ascending lexicographic order by
code point. -/
def sortedStrings (l : List String) : List String :=
  List.insertionSort (fun a b => strLeB a b = true) l

/-- Membership-guarded insertion: the model of `set.add`. -/
def addToSet (acc : List String) (x : String) : List String :=
  if x ∈ acc then acc else x :: acc

/-- One stripped, non-empty token of `_normalise_port_values`
(src/app/schemas.py lines 62-87): a `start-end` range when the token holds a
hyphen, otherwise a single port.  Returns the normalised string to add to the
set, or the validation error.  (The quotes Python puts around the offending
token in its messages are dropped.) -/
def normalise_port_token (candidate : String) : Except String String :=
  if candidate.data.contains ('-') then
    match splitOnceChar ('-') candidate.data with
    | none => .error ("unreachable: the token was checked to hold a hyphen")
    | some (s, e) =>
      match parseNat? s, parseNat? e with
      | some startPort, some endPort =>
        if 1 ≤ startPort ∧ startPort ≤ 65535 ∧ 1 ≤ endPort ∧ endPort ≤ 65535 then
          if startPort > endPort then
            .error ("Port range " ++ candidate ++ " start must be less than or equal to end")
          else
            .ok (natToString startPort ++ "-" ++ natToString endPort)
        else
          .error ("Port range " ++ candidate ++ " must be within 1-65535")
      | _, _ => .error ("Port range " ++ candidate ++ " is not valid")
  else
    match parseNat? candidate.data with
    | some portNum =>
      if 1 ≤ portNum ∧ portNum ≤ 65535 then .ok (natToString portNum)
      else .error ("Port " ++ candidate ++ " must be between 1 and 65535")
    | none => .error ("Port " ++ candidate ++ " is not a valid number")

/-- Inner loop of `_normalise_port_values`: strip each comma-separated token,
skip empty ones, normalise the rest into the accumulated set. -/
def collect_port_tokens (acc : List String) : List String → Except String (List String)
  | [] => .ok acc
  | token :: rest =>
    let candidate := pythonStrip token
    if candidate = "" then collect_port_tokens acc rest
    else
      match normalise_port_token candidate with
      | .error e => .error e
      | .ok x => collect_port_tokens (addToSet acc x) rest

/-- Outer loop of `_normalise_port_values`: split every value on commas. -/
def collect_port_values (acc : List String) : List String → Except String (List String)
  | [] => .ok acc
  | value :: rest =>
    match collect_port_tokens acc (splitChar (',') value) with
    | .error e => .error e
    | .ok acc2 => collect_port_values acc2 rest

/-- Embedding of `_normalise_port_values` (src/app/schemas.py lines 56-90):
collect the normalised set of port tokens, fail when it is empty, and return
it sorted lexicographically as strings. -/
def normalise_port_values (values : List String) : Except String (List String) :=
  match collect_port_values [] values with
  | .error e => .error e
  | .ok collected =>
    if collected.isEmpty then .error ("At least one port value is required")
    else .ok (sortedStrings collected)

theorem addToSet_nodup (acc : List String) (x : String) (h : acc.Nodup) :
    (addToSet acc x).Nodup := by
  unfold addToSet
  split
  · exact h
  · exact List.nodup_cons.mpr ⟨by assumption, h⟩

theorem collect_port_tokens_nodup (tokens : List String) (acc acc2 : List String)
    (h : collect_port_tokens acc tokens = .ok acc2) (hnd : acc.Nodup) : acc2.Nodup := by
  induction tokens generalizing acc with
  | nil => unfold collect_port_tokens at h; cases h; exact hnd
  | cons t ts ih =>
    unfold collect_port_tokens at h
    by_cases hc : pythonStrip t = ""
    · simp only [hc, if_pos] at h
      exact ih acc (by simpa using h) hnd
    · simp only [if_neg hc] at h
      cases he : normalise_port_token (pythonStrip t) with
      | error e => rw [he] at h; cases h
      | ok x =>
        rw [he] at h
        exact ih (addToSet acc x) h (addToSet_nodup acc x hnd)

theorem collect_port_values_nodup (values : List String) (acc acc2 : List String)
    (h : collect_port_values acc values = .ok acc2) (hnd : acc.Nodup) : acc2.Nodup := by
  induction values generalizing acc with
  | nil => unfold collect_port_values at h; cases h; exact hnd
  | cons v vs ih =>
    unfold collect_port_values at h
    cases he : collect_port_tokens acc (splitChar (',') v) with
    | error e => rw [he] at h; cases h
    | ok acc1 =>
      rw [he] at h
      exact ih acc1 h (collect_port_tokens_nodup _ acc acc1 he hnd)

theorem sortedStrings_sorted (l : List String) :
    (sortedStrings l).Sorted (fun a b => strLeB a b = true) :=
  List.sorted_insertionSort (fun a b => strLeB a b = true) l

theorem sortedStrings_perm (l : List String) : (sortedStrings l).Perm l :=
  List.perm_insertionSort (fun a b => strLeB a b = true) l

/-- C6, counterexample: the code does not collapse the single-value range
`80-80` to the port `80`; the input `["443", "80-80", "22,23"]` normalises to
`{"22", "23", "443", "80-80"}`, not to the claimed `{"22", "23", "443", "80"}`. -/
theorem normalise_port_values_80_80_counterexample :
    normalise_port_values (["443", "80-80", "22,23"])
        = Except.ok (["22", "23", "443", "80-80"]) ∧
    Except.ok (["22", "23", "443", "80-80"])
        ≠ (Except.ok (["22", "23", "443", "80"]) : Except String (List String)) := by
  refine ⟨by decide, fun h => ?_⟩
  have h2 : (["22", "23", "443", "80-80"] : List String) = ["22", "23", "443", "80"] :=
    Except.ok.inj h
  exact absurd h2 (by decide)

/-- C6, amended: comma-separated tokens are split and validated (single
integer 1-65535, or a start-end range with both bounds in range and start at
most end), duplicates are removed and the result is sorted lexicographically
as strings, but a single-value range stays in `start-end` form: the input
`["443", "80-80", "22,23"]` normalises to `{"22", "23", "443", "80-80"}`
(`80-80` is kept as a range, not collapsed to `80`). -/
theorem normalise_port_values_amended :
    normalise_port_values (["443", "80-80", "22,23"])
        = Except.ok (["22", "23", "443", "80-80"])
    ∧ normalise_port_token ("80-80") = Except.ok ("80-80")
    ∧ (∀ values result, normalise_port_values values = Except.ok result →
        result.Sorted (fun a b => strLeB a b = true) ∧ result.Nodup) := by
  refine ⟨by decide, by decide, fun values result h => ?_⟩
  unfold normalise_port_values at h
  split at h
  · exact Except.noConfusion h
  next collected heq =>
    split at h
    · exact Except.noConfusion h
    · have hr : sortedStrings collected = result := Except.ok.inj h
      subst hr
      refine ⟨sortedStrings_sorted collected, ?_⟩
      exact ((sortedStrings_perm collected).nodup_iff).mpr
        (collect_port_values_nodup values [] collected heq List.nodup_nil)

/-- Witness for the amended C6 theorem at the concrete input of the claim. -/
theorem normalise_port_values_amended_witness :
    (["22", "23", "443", "80-80"] : List String).Sorted (fun a b => strLeB a b = true)
    ∧ (["22", "23", "443", "80-80"] : List String).Nodup :=
  normalise_port_values_amended.2.2 (["443", "80-80", "22,23"])
    (["22", "23", "443", "80-80"]) normalise_port_values_amended.1

/-- Python `str.title` restricted to ASCII: an alphabetic character is
uppercased when the preceding character is not alphabetic and lowercased
otherwise; other characters are kept and reset the word boundary. -/
def titleAux : Bool → List Char → List Char
  | _, [] => []
  | prevAlpha, c :: cs =>
    (if c.isAlpha then (if prevAlpha then c.toLower else c.toUpper) else c)
      :: titleAux c.isAlpha cs

/-- Python `str.title`. -/
def pythonTitle (s : String) : String := String.mk (titleAux false s.data)

/-- Python `str.lower` (ASCII). -/
def pythonLower (s : String) : String := String.mk (s.data.map Char.toLower)

/-- Python `str.upper` (ASCII). -/
def pythonUpper (s : String) : String := String.mk (s.data.map Char.toUpper)

/-- Request type enumeration (src/app/models.py). -/
inductive RequestType
  | ONBOARDING | FIREWALL | ORGANIZATION | LOB | SUBSCRIPTION
deriving DecidableEq, Repr

/-- The `.value` string of a request type. -/
def requestTypeValue : RequestType → String
  | .ONBOARDING => "ONBOARDING"
  | .FIREWALL => "FIREWALL"
  | .ORGANIZATION => "ORGANIZATION"
  | .LOB => "LOB"
  | .SUBSCRIPTION => "SUBSCRIPTION"

/-- Request status enumeration (src/app/models.py). -/
inductive RequestStatus
  | DRAFT | PENDING | APPROVED | REJECTED | CANCELLED
  | SUBSCRIPTION_ASSIGNED | FOUNDATION_INFRA_PROVISIONING | FOUNDATION_INFRA_COMPLETED
  | INFRASTRUCTURE_PROVISIONING | INFRASTRUCTURE_COMPLETED | COMPLETED | FAILED
deriving DecidableEq, Repr

/-- The `.value` string of a request status. -/
def statusValue : RequestStatus → String
  | .DRAFT => "DRAFT"
  | .PENDING => "PENDING"
  | .APPROVED => "APPROVED"
  | .REJECTED => "REJECTED"
  | .CANCELLED => "CANCELLED"
  | .SUBSCRIPTION_ASSIGNED => "SUBSCRIPTION_ASSIGNED"
  | .FOUNDATION_INFRA_PROVISIONING => "FOUNDATION_INFRA_PROVISIONING"
  | .FOUNDATION_INFRA_COMPLETED => "FOUNDATION_INFRA_COMPLETED"
  | .INFRASTRUCTURE_PROVISIONING => "INFRASTRUCTURE_PROVISIONING"
  | .INFRASTRUCTURE_COMPLETED => "INFRASTRUCTURE_COMPLETED"
  | .COMPLETED => "COMPLETED"
  | .FAILED => "FAILED"

/-- Workflow stage enumeration (src/app/models.py). -/
inductive WorkflowStage
  | REQUEST_RAISED | PENDING_APPROVAL | APPROVED | SUBSCRIPTION_ASSIGNMENT
  | FOUNDATION_INFRA | INFRASTRUCTURE | NETWORK_REVIEW | RULE_COLLECTION_BUILD
  | RULE_DEPLOYMENT | HANDOVER | REJECTED | CANCELLED
deriving DecidableEq, Repr

/-- Row of the `applications` table; timestamp columns are not represented
(no claim mentions them). -/
structure Application where
  id : Nat
  request_type : RequestType
  app_code : String
  app_slug : Option String
  application_name : String
  organization : Option String
  lob : Option String
  platform : Option String
  status : RequestStatus
  current_stage : WorkflowStage
  requested_by : String
  approved_by : Option String
  rejection_reason : Option String
  cancelled_by : Option String
  cancellation_reason : Option String
  expedite_requested : Bool
  expedite_reason : Option String
  is_editable : Bool
deriving DecidableEq, Repr

/-- Row of the `app_environments` table. -/
structure AppEnvironment where
  id : Nat
  app_id : Nat
  environment_name : String
  region : String
  subscription_id : Option String
  is_assigned : Bool
  assigned_by : Option String
deriving DecidableEq, Repr

/-- Row of the `request_audit` table. -/
structure RequestAudit where
  request_type : String
  app_id : Nat
  user_email : String
  action : String
  details : Option String
deriving DecidableEq, Repr

/-- Row of the `request_timeline` table. -/
structure RequestTimeline where
  app_id : Nat
  stage : WorkflowStage
  status : String
  message : Option String
  performed_by : Option String
deriving DecidableEq, Repr

/-- Row of the `firewall_requests` table; only the columns the claims touch
are represented (the JSON blob columns, dates and URLs are opaque to every
claim). -/
structure FirewallRequestRow where
  id : Nat
  app_id : Nat
  source_application_id : Nat
  collection_name : String
  application_name_at_submission : String
  organization_at_submission : Option String
  lob_at_submission : Option String
  requester_email_at_submission : String
deriving DecidableEq, Repr

/-- Row of the `firewall_rule_collections` table. -/
structure FirewallRuleCollection where
  id : Nat
  firewall_request_id : Nat
  collection_type : String
  action : String
  priority : Nat
deriving DecidableEq, Repr

/-- Row of the `firewall_rule_entries` table; of its many columns the claims
only read the owning request, the name and the duplicate key. -/
structure FirewallRuleEntry where
  id : Nat
  firewall_request_id : Nat
  rule_collection_id : Nat
  name : String
  collection_type : String
  duplicate_key : String
deriving DecidableEq, Repr

/-- The relational store: one list per table. -/
structure Store where
  apps : List Application
  environments : List AppEnvironment
  audits : List RequestAudit
  timeline : List RequestTimeline
  firewall_requests : List FirewallRequestRow
  rule_collections : List FirewallRuleCollection
  rule_entries : List FirewallRuleEntry
deriving DecidableEq, Repr

/-- `BaseRepository.get_by_id` for applications. -/
def get_by_id (store : Store) (app_id : Nat) : Option Application :=
  store.apps.find? (fun a => a.id == app_id)

/-- In-place mutation of an ORM row: replace the row with the same id. -/
def replace_app (store : Store) (a : Application) : Store :=
  { store with apps := store.apps.map (fun b => if b.id == a.id then a else b) }

/-- Autoincrement primary key for `applications`. -/
def next_app_id (store : Store) : Nat :=
  (store.apps.map (fun a => a.id)).foldl max 0 + 1

/-- Autoincrement primary key for `app_environments`. -/
def next_env_id (store : Store) : Nat :=
  (store.environments.map (fun e => e.id)).foldl max 0 + 1

/-- Errors raised by the service layer. -/
inductive ServiceError
  | valueError (message : String)
  | permissionError (message : String)
deriving DecidableEq, Repr

/-- HTTP-level error responses of the API endpoints. -/
structure ApiError where
  code : Nat
  message : String
deriving DecidableEq, Repr

/-- Code start of `_generate_app_code` (src/app/services/application_service.py
lines 357-365). -/
def type_code : RequestType → String
  | .ONBOARDING => "APP"
  | .FIREWALL => "FW"
  | .ORGANIZATION => "ORG"
  | .LOB => "LOB"
  | .SUBSCRIPTION => "SUB"

/-- `ApplicationRepository.get_latest_by_type`: applications of the type
ordered by id descending, first — i.e. the one with the greatest id. -/
def get_latest_by_type (store : Store) (t : RequestType) : Option Application :=
  (store.apps.filter (fun a => a.request_type == t)).foldl
    (fun acc a =>
      match acc with
      | none => some a
      | some b => if b.id < a.id then some a else some b)
    none

/-- Python `f"{n:05d}"`. -/
def padNum5 (n : Nat) : String :=
  let s := natToString n
  String.mk (List.replicate (5 - s.length) ('0')) ++ s

/-- `_generate_app_code`: `<TYPE>-NNNNN` with number = id of the latest
application of the type plus one (ids are positive, so the Python truthiness
check on `latest_app.id` is the `some` case). -/
def generate_app_code (store : Store) (t : RequestType) : String :=
  let nextNum :=
    match get_latest_by_type store t with
    | some latest => latest.id + 1
    | none => 1
  type_code t ++ "-" ++ padNum5 nextNum

/-- `ApplicationService.is_slug_available`. -/
def is_slug_available (store : Store) (slug : String) : Bool :=
  !(store.apps.any (fun a => a.app_slug == some slug))

/-- The creation payload dictionary of `ApplicationService.create_application`;
`request_type`, `save_as_draft`, `environments` and `region` mirror the keys
the two call sites (src/app/api.py line 233, firewall service line 162) put in
the dictionary. -/
structure CreateData where
  request_type : RequestType
  app_slug : Option String
  application_name : String
  organization : Option String
  lob : Option String
  platform : Option String
  environments : List String
  region : Option String
  save_as_draft : Bool
deriving DecidableEq, Repr

/-- The application row built by `create_application` (lines 67-92): the
stored `application_name` is the `str.title` transform of the submitted one. -/
def created_application (store : Store) (data : CreateData) (requested_by : String) :
    Application :=
  { id := next_app_id store
    request_type := data.request_type
    app_code := generate_app_code store data.request_type
    app_slug := data.app_slug
    application_name := pythonTitle data.application_name
    organization := data.organization
    lob := data.lob
    platform := data.platform
    status := if data.save_as_draft then .DRAFT else .PENDING
    current_stage := if data.save_as_draft then .REQUEST_RAISED else .PENDING_APPROVAL
    requested_by := requested_by
    approved_by := none
    rejection_reason := none
    cancelled_by := none
    cancellation_reason := none
    expedite_requested := false
    expedite_reason := none
    is_editable := data.save_as_draft }

/-- The environment rows built by `create_application` (lines 94-101). -/
def created_environments (store : Store) (data : CreateData) : List AppEnvironment :=
  data.environments.enum.map (fun p =>
    { id := next_env_id store + p.fst
      app_id := next_app_id store
      environment_name := p.snd
      region := data.region.getD ("East US")
      subscription_id := none
      is_assigned := false
      assigned_by := none })

/-- The audit row written by `create_application` (lines 108-115). -/
def created_audit_row (store : Store) (data : CreateData) (requested_by : String) :
    RequestAudit :=
  let app := created_application store data requested_by
  { request_type := "CREATE"
    app_id := app.id
    user_email := requested_by
    action := "Created " ++ requestTypeValue data.request_type ++ " request: " ++ app.app_code
    details := some ("Application: " ++ data.application_name) }

/-- The timeline rows written by `create_application` (lines 117-134): the
creation event always, the submission event only when not saved as draft. -/
def created_timeline_rows (store : Store) (data : CreateData) (requested_by : String) :
    List RequestTimeline :=
  let app := created_application store data requested_by
  { app_id := app.id, stage := .REQUEST_RAISED, status := "COMPLETED",
    message := some ("Request created"), performed_by := some requested_by }
  :: (if data.save_as_draft then [] else
      [{ app_id := app.id, stage := .PENDING_APPROVAL, status := "IN_PROGRESS",
         message := some ("Request submitted for approval"),
         performed_by := some requested_by }])

/-- Commit sequence of `create_application` (lines 103-134): the application
and its environments are committed first (line 105), the audit row in a
second commit (`_create_audit_log`, line 408), and each timeline event in a
commit of its own (`_create_timeline_event`, line 437). -/
def create_application_commits (store : Store) (data : CreateData) (requested_by : String) :
    List (Store → Store) :=
  (fun s => { s with
    apps := s.apps ++ [created_application store data requested_by],
    environments := s.environments ++ created_environments store data })
  :: (fun s => { s with audits := s.audits ++ [created_audit_row store data requested_by] })
  :: (created_timeline_rows store data requested_by).map
      (fun ev s => { s with timeline := s.timeline ++ [ev] })

/-- Runs the first `k` commits of a commit sequence: this is the state the
database is left in when the `k+1`-st step raises, since each earlier commit
is already durable and a rollback only discards uncommitted work. -/
def apply_commits (steps : List (Store → Store)) (store : Store) (k : Nat) : Store :=
  (steps.take k).foldl (fun s f => f s) store

/-- `ApplicationService.create_application` (lines 40-136): slug-uniqueness
check for onboarding requests, then the full commit sequence. -/
def create_application (store : Store) (data : CreateData) (requested_by : String) :
    Except ServiceError (Store × Application) :=
  if data.request_type == RequestType.ONBOARDING
      && (match data.app_slug with
          | some slug => !(slug == "") && !(is_slug_available store slug)
          | none => false) then
    .error (.valueError ("Slug is already taken"))
  else
    let steps := create_application_commits store data requested_by
    .ok (apply_commits steps store steps.length, created_application store data requested_by)

/-- `ApplicationService.submit_application` (lines 138-195): status is
checked before authorization, so a non-DRAFT application yields the
`ValueError` for every caller. -/
def submit_application (store : Store) (app_id : Nat) (user_email : String)
    (is_admin : Bool) : Except ServiceError (Store × Application) :=
  match get_by_id store app_id with
  | none => .error (.valueError ("Application " ++ natToString app_id ++ " not found"))
  | some application =>
    if application.status ≠ RequestStatus.DRAFT then
      .error (.valueError ("Only draft requests can be submitted for approval"))
    else if application.requested_by ≠ user_email ∧ is_admin = false then
      .error (.permissionError ("You are not authorized to submit this request"))
    else
      let app2 := { application with
        status := .PENDING, current_stage := .PENDING_APPROVAL, is_editable := false }
      let auditRow : RequestAudit :=
        { request_type := "SUBMIT", app_id := app_id, user_email := user_email,
          action := "Submitted request " ++ application.app_code ++ " for approval",
          details := some ("Request moved to pending approval") }
      let ev : RequestTimeline :=
        { app_id := app_id, stage := .PENDING_APPROVAL, status := "IN_PROGRESS",
          message := some ("Request submitted for approval"), performed_by := some user_email }
      let s1 := replace_app store app2
      .ok ({ s1 with audits := s1.audits ++ [auditRow], timeline := s1.timeline ++ [ev] }, app2)

/-- `ApplicationService.cancel_application` (lines 439-507): authorization is
checked before the status precondition. -/
def cancel_application (store : Store) (app_id : Nat) (user_email : String)
    (is_admin : Bool) (cancellation_reason : String) :
    Except ServiceError (Store × Application) :=
  match get_by_id store app_id with
  | none => .error (.valueError ("Application " ++ natToString app_id ++ " not found"))
  | some application =>
    if is_admin = false ∧ application.requested_by ≠ user_email then
      .error (.permissionError ("You are not authorized to cancel this request"))
    else if application.status ≠ RequestStatus.DRAFT
        ∧ application.status ≠ RequestStatus.PENDING then
      .error (.valueError ("Cannot cancel request with status " ++ statusValue application.status))
    else
      let app2 := { application with
        status := .CANCELLED, current_stage := .CANCELLED,
        cancelled_by := some user_email,
        cancellation_reason := some cancellation_reason,
        is_editable := false }
      let auditRow : RequestAudit :=
        { request_type := "CANCEL", app_id := app_id, user_email := user_email,
          action := "Cancelled request " ++ application.app_code,
          details := some ("Reason: " ++ cancellation_reason) }
      let ev : RequestTimeline :=
        { app_id := app_id, stage := .CANCELLED, status := "COMPLETED",
          message := some ("Request cancelled: " ++ cancellation_reason),
          performed_by := some user_email }
      let s1 := replace_app store app2
      .ok ({ s1 with audits := s1.audits ++ [auditRow], timeline := s1.timeline ++ [ev] }, app2)

/-- Values of the Python update dictionary; assignments whose value does not
fit the column type would only fail later at flush time and are modelled as
no-ops, and timestamp or relationship attributes are not represented. -/
inductive PyValue
  | pstr (s : String)
  | pbool (b : Bool)
  | pstatus (st : RequestStatus)
  | pstage (sg : WorkflowStage)
  | ptype (t : RequestType)
  | pnone
deriving DecidableEq, Repr

/-- Attribute names of the `Application` model for the `hasattr` check of
`update_application`. -/
def model_attribute_names : List String :=
  ["id", "request_type", "app_code", "app_slug", "application_name", "organization",
   "lob", "onboarding_date", "platform", "status", "current_stage", "requested_by",
   "approved_by", "rejection_reason", "cancelled_by", "cancellation_reason",
   "cancelled_at", "expedite_requested", "expedite_requested_at", "expedite_reason",
   "is_editable", "created_at", "updated_at", "environments", "audits", "comments",
   "timeline"]

/-- Python `setattr(application, key, value)` for the represented columns:
one branch per column, applied when the value fits the column type. -/
def set_model_field (app : Application) (key : String) (value : PyValue) : Application :=
  if key = "request_type" then
    match value with
    | .ptype t => { app with request_type := t }
    | _ => app
  else if key = "app_code" then
    match value with
    | .pstr s => { app with app_code := s }
    | _ => app
  else if key = "app_slug" then
    match value with
    | .pstr s => { app with app_slug := some s }
    | .pnone => { app with app_slug := none }
    | _ => app
  else if key = "application_name" then
    match value with
    | .pstr s => { app with application_name := s }
    | _ => app
  else if key = "organization" then
    match value with
    | .pstr s => { app with organization := some s }
    | _ => app
  else if key = "lob" then
    match value with
    | .pstr s => { app with lob := some s }
    | _ => app
  else if key = "platform" then
    match value with
    | .pstr s => { app with platform := some s }
    | _ => app
  else if key = "status" then
    match value with
    | .pstatus st => { app with status := st }
    | _ => app
  else if key = "current_stage" then
    match value with
    | .pstage sg => { app with current_stage := sg }
    | _ => app
  else if key = "requested_by" then
    match value with
    | .pstr s => { app with requested_by := s }
    | _ => app
  else if key = "approved_by" then
    match value with
    | .pstr s => { app with approved_by := some s }
    | _ => app
  else if key = "rejection_reason" then
    match value with
    | .pstr s => { app with rejection_reason := some s }
    | _ => app
  else if key = "is_editable" then
    match value with
    | .pbool b => { app with is_editable := b }
    | _ => app
  else app

/-- Field-update loop of `update_application` (lines 236-244): skip
`save_as_draft`/`environments`/`region`, then set every key that is a model
attribute other than `id`, `app_code`, `created_at`. -/
def apply_update_fields (app : Application) : List (String × PyValue) → Application
  | [] => app
  | (key, value) :: rest =>
    if key = "save_as_draft" ∨ key = "environments" ∨ key = "region" then
      apply_update_fields app rest
    else if key ∈ model_attribute_names ∧ key ≠ "id" ∧ key ≠ "app_code" ∧ key ≠ "created_at" then
      apply_update_fields (set_model_field app key value) rest
    else
      apply_update_fields app rest

/-- Python `data.get(key, False)` coerced to a boolean. -/
def data_get_bool (data : List (String × PyValue)) (key : String) : Bool :=
  match data.find? (fun kv => kv.fst == key) with
  | some (_, .pbool b) => b
  | _ => false

/-- Python `key in data`. -/
def data_has_key (data : List (String × PyValue)) (key : String) : Bool :=
  data.any (fun kv => kv.fst == key)

/-- `ApplicationService.update_application` (lines 197-269). -/
def update_application (store : Store) (app_id : Nat) (data : List (String × PyValue))
    (user_email : String) (is_admin : Bool) : Except ServiceError (Store × Application) :=
  match get_by_id store app_id with
  | none => .error (.valueError ("Application " ++ natToString app_id ++ " not found"))
  | some application =>
    if is_admin = false ∧ application.requested_by ≠ user_email then
      .error (.permissionError ("You are not authorized to update this request"))
    else if application.is_editable = false then
      .error (.valueError ("Application is no longer editable"))
    else
      let save_as_draft := data_get_bool data "save_as_draft"
      let app1 := apply_update_fields application data
      let app2 :=
        if data_has_key data "status" then app1
        else if save_as_draft then
          { app1 with status := .DRAFT, is_editable := true }
        else
          { app1 with
            status := .PENDING, current_stage := .PENDING_APPROVAL,
            is_editable := false }
      let auditRow : RequestAudit :=
        { request_type := "UPDATE", app_id := app_id, user_email := user_email,
          action := "Updated application " ++ application.app_code,
          details := some ("Fields updated") }
      let s1 := replace_app store app2
      .ok ({ s1 with audits := s1.audits ++ [auditRow] }, app2)

/-- Validation of the `ApprovalRequest` schema (src/app/schemas.py lines
164-177): a falsy rejection reason is an error when rejecting, and the stored
reason is the stripped value or `None` when falsy. -/
def validate_approval (approved : Bool) (rejection_reason : Option String) :
    Except String (Bool × Option String) :=
  let falsy :=
    match rejection_reason with
    | none => true
    | some s => s = ""
  if approved = false ∧ falsy = true then
    .error ("Rejection reason is required when rejecting a request")
  else
    .ok (approved,
      match rejection_reason with
      | none => none
      | some s => if s = "" then none else some (pythonStrip s))

/-- `approve_request` endpoint (src/app/api.py lines 443-569): admin check,
schema validation, 404, PENDING precondition, then the mutation and the
timeline events — three events on approval, two `FAILED` events on
rejection. -/
def approve_request (store : Store) (request_id : Nat) (user_email : String)
    (is_admin : Bool) (approved : Bool) (rejection_reason : Option String) :
    Except ApiError (Store × Application) :=
  if is_admin = false then .error ⟨403, "Unauthorized - Admin access required"⟩
  else
    match validate_approval approved rejection_reason with
    | .error e => .error ⟨400, e⟩
    | .ok (approvedV, reasonV) =>
      match get_by_id store request_id with
      | none => .error ⟨404, "Application not found"⟩
      | some application =>
        if application.status ≠ RequestStatus.PENDING then
          .error ⟨400, "Request already " ++ statusValue application.status⟩
        else
          let app2 :=
            if approvedV then
              { application with
                status := .APPROVED, approved_by := some user_email,
                current_stage := .SUBSCRIPTION_ASSIGNMENT }
            else
              { application with
                status := .REJECTED, approved_by := some user_email,
                rejection_reason := reasonV, current_stage := .REJECTED }
          let message :=
            if approvedV then "Request approved by " ++ user_email
            else "Request rejected by " ++ user_email ++ ": " ++ reasonV.getD ""
          let events : List RequestTimeline :=
            if approvedV then
              [{ app_id := request_id, stage := .PENDING_APPROVAL, status := "COMPLETED",
                 message := some message, performed_by := some user_email },
               { app_id := request_id, stage := .APPROVED, status := "COMPLETED",
                 message := some ("Request approved by " ++ user_email),
                 performed_by := some user_email },
               { app_id := request_id, stage := .SUBSCRIPTION_ASSIGNMENT,
                 status := "IN_PROGRESS",
                 message := some ("Subscription assignment started"),
                 performed_by := some user_email }]
            else
              [{ app_id := request_id, stage := .PENDING_APPROVAL, status := "FAILED",
                 message := some message, performed_by := some user_email },
               { app_id := request_id, stage := .REJECTED, status := "FAILED",
                 message := some message, performed_by := some user_email }]
          let s1 := replace_app store app2
          .ok ({ s1 with timeline := s1.timeline ++ events }, app2)

/-- One entry of the `assignments` request body. -/
structure SubscriptionAssignment where
  env_id : Option Nat
  subscription_id : Option String
deriving DecidableEq, Repr

/-- Updates the first environment row matching `(env_id, app_id)`
(`AppEnvironment.query.filter_by(...).first()`). -/
def update_first_env (envId request_id : Nat) (subId user_email : String) :
    List AppEnvironment → List AppEnvironment
  | [] => []
  | e :: rest =>
    if e.id == envId && e.app_id == request_id then
      { e with
        subscription_id := some subId, is_assigned := true,
        assigned_by := some user_email } :: rest
    else e :: update_first_env envId request_id subId user_email rest

/-- One loop iteration of the assignment update (api.py lines 606-621):
Python-falsy `env_id` (absent or 0) or `subscription_id` (absent or empty)
entries are skipped. -/
def apply_assignment (request_id : Nat) (user_email : String)
    (envs : List AppEnvironment) (a : SubscriptionAssignment) : List AppEnvironment :=
  match a.env_id, a.subscription_id with
  | some envId, some subId =>
    if envId = 0 ∨ subId = "" then envs
    else update_first_env envId request_id subId user_email envs
  | _, _ => envs

/-- `assign_subscriptions` endpoint (src/app/api.py lines 572-672): requires
APPROVED, applies the assignments, and advances stage/status with a timeline
pair exactly when every environment of the application is assigned and the
stage is still SUBSCRIPTION_ASSIGNMENT.  Returns the store, the
`all_assigned` flag and the resulting stage. -/
def assign_subscriptions (store : Store) (request_id : Nat) (user_email : String)
    (is_admin : Bool) (assignments : List SubscriptionAssignment) :
    Except ApiError (Store × Bool × WorkflowStage) :=
  if is_admin = false then .error ⟨403, "Unauthorized - Admin access required"⟩
  else
    match get_by_id store request_id with
    | none => .error ⟨404, "Application not found"⟩
    | some application =>
      if application.status ≠ RequestStatus.APPROVED then
        .error ⟨400, "Request must be approved first"⟩
      else if assignments.isEmpty then
        .error ⟨400, "No subscription assignments provided"⟩
      else
        let envs2 := assignments.foldl (apply_assignment request_id user_email)
          store.environments
        let all_assigned :=
          (envs2.filter (fun e => e.app_id == request_id)).all (fun e => e.is_assigned)
        let advance := all_assigned
          && application.current_stage == WorkflowStage.SUBSCRIPTION_ASSIGNMENT
        let app2 :=
          if advance then
            { application with
              current_stage := .FOUNDATION_INFRA,
              status := .FOUNDATION_INFRA_PROVISIONING }
          else application
        let events : List RequestTimeline :=
          if advance then
            [{ app_id := request_id, stage := application.current_stage,
               status := "COMPLETED",
               message := some ("Subscriptions assigned to all environments"),
               performed_by := some user_email },
             { app_id := request_id, stage := .FOUNDATION_INFRA, status := "IN_PROGRESS",
               message := some ("Foundation infrastructure provisioning started"),
               performed_by := some user_email }]
          else []
        let s1 := { replace_app store app2 with environments := envs2 }
        .ok ({ s1 with timeline := s1.timeline ++ events }, all_assigned, app2.current_stage)

/-- Word-boundary violation detector for `str.title`: true when some
alphabetic character is lowercase at a word start or uppercase right after
another letter — exactly the positions `str.title` rewrites. -/
def titleViolationAux : Bool → List Char → Bool
  | _, [] => false
  | prevAlpha, c :: cs =>
    (c.isAlpha && (if prevAlpha then c.toLower != c else c.toUpper != c))
      || titleViolationAux c.isAlpha cs

/-- True when `str.title` changes the string. -/
def hasTitleViolation (s : String) : Bool := titleViolationAux false s.data

/-- Maximal alphabetic runs of a string, the "words" of `str.title`. -/
def wordsAux (cur : List Char) : List Char → List (List Char)
  | [] => if cur.isEmpty then [] else [cur.reverse]
  | c :: cs =>
    if c.isAlpha then wordsAux (c :: cur) cs
    else if cur.isEmpty then wordsAux [] cs
    else cur.reverse :: wordsAux [] cs

/-- The words (maximal alphabetic runs) of a string. -/
def pythonWords (s : String) : List (List Char) := wordsAux [] s.data

/-- True when the string holds a fully-uppercase word. -/
def containsAllUpperWord (s : String) : Bool :=
  (pythonWords s).any (fun w => w.all Char.isUpper)

/-- True when the string holds a word starting with a lowercase letter. -/
def containsLowerWordStart (s : String) : Bool :=
  (pythonWords s).any (fun w =>
    match w with
    | [] => false
    | c :: _ => c.isLower)

/-- Statuses treated as terminal by duplicate detection
(src/app/repositories/firewall_repository.py lines 39-47). -/
def isTerminalStatus (st : RequestStatus) : Bool :=
  st == .REJECTED || st == .CANCELLED || st == .FAILED

/-- `FirewallRequestRepository.find_duplicates` (lines 24-51): join each rule
entry with its owning firewall request and application, keep the rows whose
duplicate key is among the submitted keys and whose application status is not
terminal. -/
def find_duplicates (store : Store) (duplicate_keys : List String) :
    List (FirewallRuleEntry × FirewallRequestRow × Application) :=
  if duplicate_keys.isEmpty then []
  else
    store.rule_entries.filterMap (fun e =>
      if e.duplicate_key ∈ duplicate_keys then
        match store.firewall_requests.find? (fun r => r.id == e.firewall_request_id) with
        | some r =>
          match store.apps.find? (fun a => a.id == r.app_id) with
          | some a => if isTerminalStatus a.status then none else some (e, r, a)
          | none => none
        | none => none
      else none)

/-- `FirewallRequestRepository.get_max_priority_for_source` (lines 67-88):
priorities of the rule collections joined to firewall requests of the given
source application and collection type, ordered descending, first — i.e. the
maximum. -/
def get_max_priority_for_source (store : Store) (source_application_id : Nat)
    (collection_type : String) : Option Nat :=
  (store.rule_collections.filterMap (fun c =>
    match store.firewall_requests.find? (fun r => r.id == c.firewall_request_id) with
    | some r =>
      if r.source_application_id == source_application_id
          && c.collection_type == collection_type then some c.priority
      else none
    | none => none)).max?

/-- `FirewallRequestService.PRIORITY_BASELINE`. -/
def PRIORITY_BASELINE : List (String × Nat) :=
  [("APPLICATION", 400), ("NETWORK", 6500), ("NAT", 100)]

/-- `FirewallRequestService.PRIORITY_INCREMENT`. -/
def PRIORITY_INCREMENT : Nat := 100

/-- `FirewallRequestService._determine_priority` (lines 277-295). -/
def determine_priority (store : Store) (source_application_id : Nat)
    (collection_type : String) (requested_priority : Option Nat) : Nat :=
  match requested_priority with
  | some p => p
  | none =>
    match get_max_priority_for_source store source_application_id collection_type with
    | none => (PRIORITY_BASELINE.lookup collection_type).getD 100
    | some existing => min 65000 (existing + PRIORITY_INCREMENT)

/-- Protocol object of an APPLICATION rule (validated form). -/
structure ApplicationRuleProtocol where
  port : Nat
  type : String
deriving DecidableEq, Repr

/-- Validated APPLICATION rule input (src/app/schemas.py `ApplicationRuleInput`). -/
structure ApplicationRuleInput where
  name : String
  protocols : List ApplicationRuleProtocol
  source_ip_addresses : List String
  source_ip_groups : List String
  destination_fqdns : List String
  destination_addresses : List String
deriving DecidableEq, Repr

/-- Validated NETWORK rule input. -/
structure NetworkRuleInput where
  name : String
  protocols : List String
  source_ip_addresses : List String
  source_ip_groups : List String
  destination_ip_addresses : List String
  destination_ip_groups : List String
  destination_ports : List String
  destination_fqdns : List String
deriving DecidableEq, Repr

/-- Validated NAT rule input. -/
structure NatRuleInput where
  name : String
  protocols : List String
  source_ip_addresses : List String
  source_ip_groups : List String
  destination_address : String
  destination_ports : List String
  translated_address : String
  translated_port : Nat
deriving DecidableEq, Repr

/-- A rule of any of the three collection types. -/
inductive RuleInput
  | appRule (r : ApplicationRuleInput)
  | networkRule (r : NetworkRuleInput)
  | natRule (r : NatRuleInput)
deriving DecidableEq, Repr

/-- The `name` field shared by all rule types. -/
def RuleInput.name : RuleInput → String
  | .appRule r => r.name
  | .networkRule r => r.name
  | .natRule r => r.name

/-- Validated APPLICATION rule group. -/
structure ApplicationRuleGroupInput where
  action : String
  priority : Option Nat
  rules : List ApplicationRuleInput
deriving DecidableEq, Repr

/-- Validated NETWORK rule group. -/
structure NetworkRuleGroupInput where
  action : String
  priority : Option Nat
  rules : List NetworkRuleInput
deriving DecidableEq, Repr

/-- Validated NAT rule group. -/
structure NatRuleGroupInput where
  action : String
  priority : Option Nat
  rules : List NatRuleInput
deriving DecidableEq, Repr

/-- Validated firewall-request creation payload
(src/app/schemas.py `FirewallRequestCreate`); the columns that flow straight
into unrepresented JSON/date columns are omitted. -/
structure FirewallRequestCreate where
  source_application_id : Nat
  collection_name : String
  environment_scopes : List String
  application_rules : Option ApplicationRuleGroupInput
  network_rules : Option NetworkRuleGroupInput
  nat_rules : Option NatRuleGroupInput
deriving DecidableEq, Repr

/-- A `(collection_type, group)` pair of `_iter_groups`. -/
structure RuleGroupView where
  collection_type : String
  action : String
  priority : Option Nat
  rules : List RuleInput
deriving DecidableEq, Repr

/-- `FirewallRequestService._iter_groups` (lines 252-275). -/
def iter_groups (payload : FirewallRequestCreate) : List RuleGroupView :=
  (match payload.application_rules with
   | some g => [⟨"APPLICATION", g.action, g.priority, g.rules.map RuleInput.appRule⟩]
   | none => [])
  ++ (match payload.network_rules with
      | some g => [⟨"NETWORK", g.action, g.priority, g.rules.map RuleInput.networkRule⟩]
      | none => [])
  ++ (match payload.nat_rules with
      | some g => [⟨"NAT", g.action, g.priority, g.rules.map RuleInput.natRule⟩]
      | none => [])

/-- Python tuple comparison `(type, port) <= (type2, port2)` for protocol
sorting. -/
def protoLe (p q : ApplicationRuleProtocol) : Bool :=
  if p.type = q.type then decide (p.port ≤ q.port) else strLeB p.type q.type

/-- Python `sorted(protocols, key=lambda p: (p.type, p.port))`. -/
def sortedProtocols (l : List ApplicationRuleProtocol) : List ApplicationRuleProtocol :=
  List.insertionSort (fun p q => protoLe p q = true) l

/-- Python `sep.join(parts)`. -/
def joinSep (sep : String) : List String → String
  | [] => ""
  | [x] => x
  | x :: xs => x ++ sep ++ joinSep sep xs

/-- `FirewallRequestService._build_duplicate_key` (lines 540-593): the
"::"-joined component string; the source stores its sha256 hexdigest, which
is modelled by the preimage (key equality is preimage equality). -/
def build_duplicate_key (collection_type : String) (rule : RuleInput) : String :=
  let components : List String :=
    match rule with
    | .appRule r =>
      [collection_type, pythonLower r.name,
       joinSep ("|") ((sortedProtocols r.protocols).map
         (fun p => p.type ++ ":" ++ natToString p.port)),
       joinSep ("|") (sortedStrings r.source_ip_addresses),
       joinSep ("|") (sortedStrings (r.destination_fqdns ++ r.destination_addresses)),
       joinSep ("|") (sortedStrings r.source_ip_groups)]
    | .networkRule r =>
      [collection_type, pythonLower r.name,
       joinSep ("|") (sortedStrings r.protocols),
       joinSep ("|") (sortedStrings r.source_ip_addresses),
       joinSep ("|") (sortedStrings r.source_ip_groups),
       joinSep ("|") (sortedStrings r.destination_ip_addresses),
       joinSep ("|") (sortedStrings r.destination_ip_groups),
       joinSep ("|") (sortedStrings r.destination_ports),
       joinSep ("|") (sortedStrings r.destination_fqdns)]
    | .natRule r =>
      [collection_type, pythonLower r.name,
       joinSep ("|") (sortedStrings r.protocols),
       joinSep ("|") (sortedStrings r.source_ip_addresses),
       joinSep ("|") (sortedStrings r.source_ip_groups),
       pythonLower r.destination_address,
       joinSep ("|") (sortedStrings r.destination_ports),
       pythonLower r.translated_address,
       natToString r.translated_port]
  joinSep ("::") components

/-- The duplicate keys of a submission, groups outer and rules inner
(src/app/services/firewall_request_service.py lines 77-82). -/
def payload_duplicate_keys (payload : FirewallRequestCreate) : List String :=
  ((iter_groups payload).map
    (fun g => g.rules.map (build_duplicate_key g.collection_type))).flatten

/-- Abbreviated environment code mapping (lines 130-139). -/
def env_code_to_name (code : String) : Option String :=
  List.lookup code
    [("DEV", "DEVELOPMENT"), ("TEST", "TESTING"), ("QA", "QA"), ("STAGE", "STAGING"),
     ("UAT", "UAT"), ("PROD", "PRODUCTION"), ("DR", "DR")]

/-- The set of stripped upper-cased environment names of the source
application (lines 141-145). -/
def available_scopes (store : Store) (source_app_id : Nat) : List String :=
  (store.environments.filter (fun e => e.app_id == source_app_id)).foldl
    (fun acc e => addToSet acc (pythonUpper (pythonStrip e.environment_name))) []

/-- The normalised requested scopes (lines 147-153). -/
def normalized_scopes (scopes : List String) : List String :=
  scopes.foldl
    (fun acc scope =>
      let su := pythonUpper (pythonStrip scope)
      addToSet acc ((env_code_to_name su).getD su))
    []

/-- Source-application resolution (lines 101-121): numeric id first, then by
app code or slug equal to the decimal string of the id. -/
def resolve_source_application (store : Store) (source_application_id : Nat) :
    Option Application :=
  match get_by_id store source_application_id with
  | some a => some a
  | none =>
    store.apps.find? (fun a =>
      a.app_code == natToString source_application_id
        || a.app_slug == some (natToString source_application_id))

/-- Errors raised by `create_firewall_request`. -/
inductive FirewallError
  | duplicate (payload : List (FirewallRuleEntry × FirewallRequestRow × Application))
  | valueError (message : String)
deriving DecidableEq, Repr

/-- Autoincrement primary key for `firewall_requests`. -/
def next_firewall_request_id (store : Store) : Nat :=
  (store.firewall_requests.map (fun r => r.id)).foldl max 0 + 1

/-- Autoincrement primary key for `firewall_rule_collections`. -/
def next_collection_id (store : Store) : Nat :=
  (store.rule_collections.map (fun c => c.id)).foldl max 0 + 1

/-- Autoincrement primary key for `firewall_rule_entries`. -/
def next_entry_id (store : Store) : Nat :=
  (store.rule_entries.map (fun e => e.id)).foldl max 0 + 1

/-- Collection-building loop of `create_firewall_request` (lines 197-223):
one collection per collection type (`collections_by_type`), priority from
`_determine_priority` against the pre-insert store. -/
def build_collections_aux (store1 : Store) (fwId source_app_id : Nat) :
    List (FirewallRuleCollection × List RuleInput) → Nat → List RuleGroupView →
    List (FirewallRuleCollection × List RuleInput)
  | acc, _, [] => acc
  | acc, nextId, g :: gs =>
    if (acc.map (fun p => p.fst.collection_type)).contains g.collection_type then
      build_collections_aux store1 fwId source_app_id
        (acc.map (fun p =>
          if p.fst.collection_type == g.collection_type then (p.fst, p.snd ++ g.rules)
          else p))
        nextId gs
    else
      build_collections_aux store1 fwId source_app_id
        (acc ++ [({ id := nextId, firewall_request_id := fwId,
                    collection_type := g.collection_type, action := g.action,
                    priority := determine_priority store1 source_app_id
                      g.collection_type g.priority }, g.rules)])
        (nextId + 1) gs

/-- The rule collections (with their rules) of a submission. -/
def build_collections (store1 : Store) (fwId source_app_id : Nat)
    (groups : List RuleGroupView) : List (FirewallRuleCollection × List RuleInput) :=
  build_collections_aux store1 fwId source_app_id [] (next_collection_id store1) groups

/-- The rule entry rows of a submission (`_build_rule_entry`, lines 297-419;
only the columns the claims read are represented). -/
def build_entries_aux (fwId : Nat) : Nat →
    List (FirewallRuleCollection × List RuleInput) → List FirewallRuleEntry
  | _, [] => []
  | nextId, (c, rs) :: rest =>
    rs.enum.map (fun p =>
      { id := nextId + p.fst, firewall_request_id := fwId, rule_collection_id := c.id,
        name := p.snd.name, collection_type := c.collection_type,
        duplicate_key := build_duplicate_key c.collection_type p.snd })
    ++ build_entries_aux fwId (nextId + rs.length) rest

/-- All rule entry rows of a submission. -/
def build_entries (store1 : Store) (fwId : Nat)
    (colls : List (FirewallRuleCollection × List RuleInput)) : List FirewallRuleEntry :=
  build_entries_aux fwId (next_entry_id store1) colls

/-- `FirewallRequestService.create_firewall_request` (lines 68-250): the
duplicate check runs before anything is written, so a `duplicate` error
leaves the store untouched; afterwards the source application is resolved and
checked, the scopes validated, the tracking application created (through
`create_application`, which commits), and the firewall request, collections,
entries, audit and timeline rows committed. -/
def create_firewall_request (store : Store) (payload : FirewallRequestCreate)
    (requested_by : String) : Except FirewallError (Store × FirewallRequestRow) :=
  let duplicate_keys := payload_duplicate_keys payload
  let duplicates := find_duplicates store duplicate_keys
  if duplicates.isEmpty = false then .error (.duplicate duplicates)
  else
    match resolve_source_application store payload.source_application_id with
    | none =>
      .error (.valueError ("Application " ++ natToString payload.source_application_id
        ++ " not found. Please provide a valid ID, app code, or slug."))
    | some source_application =>
      if source_application.request_type ≠ RequestType.ONBOARDING then
        .error (.valueError ("Firewall requests must target an onboarding application"))
      else
        let normScopes := normalized_scopes payload.environment_scopes
        let avail := available_scopes store source_application.id
        let invalid := normScopes.filter (fun s => !(avail.contains s))
        if invalid.isEmpty = false then
          .error (.valueError ("Environment scopes must match the application environments"))
        else
          let appPayload : CreateData :=
            { request_type := .FIREWALL
              app_slug := none
              application_name := source_application.application_name
              organization := source_application.organization
              lob := source_application.lob
              platform := source_application.platform
              environments := []
              region := none
              save_as_draft := false }
          match create_application store appPayload requested_by with
          | .error _ =>
            .error (.valueError ("unreachable: a FIREWALL payload has no slug check"))
          | .ok (store1, application) =>
            let fwId := next_firewall_request_id store1
            let fwRow : FirewallRequestRow :=
              { id := fwId
                app_id := application.id
                source_application_id := source_application.id
                collection_name := payload.collection_name
                application_name_at_submission := source_application.application_name
                organization_at_submission := source_application.organization
                lob_at_submission := source_application.lob
                requester_email_at_submission := application.requested_by }
            let colls := build_collections store1 fwId source_application.id
              (iter_groups payload)
            let entries := build_entries store1 fwId colls
            let auditRow : RequestAudit :=
              { request_type := "CREATE", app_id := application.id,
                user_email := requested_by,
                action := "Created firewall request " ++ application.app_code,
                details := some ("Submitted " ++ natToString duplicate_keys.length
                  ++ " firewall rule(s)") }
            let ev : RequestTimeline :=
              { app_id := application.id, stage := .PENDING_APPROVAL,
                status := "IN_PROGRESS",
                message := some ("Firewall request awaiting network admin review"),
                performed_by := some requested_by }
            .ok ({ store1 with
                    firewall_requests := store1.firewall_requests ++ [fwRow],
                    rule_collections := store1.rule_collections ++ colls.map Prod.fst,
                    rule_entries := store1.rule_entries ++ entries,
                    audits := store1.audits ++ [auditRow],
                    timeline := store1.timeline ++ [ev] }, fwRow)

/-- The empty database. -/
def emptyStore : Store :=
  { apps := [], environments := [], audits := [], timeline := [],
    firewall_requests := [], rule_collections := [], rule_entries := [] }

/-- Sample onboarding creation payload. -/
def sampleCreateData : CreateData :=
  { request_type := .ONBOARDING, app_slug := some "acme1",
    application_name := "ACME portal", organization := some "Retail",
    lob := some "Payments", platform := some "Azure",
    environments := ["DEVELOPMENT", "PRODUCTION"], region := some "East US",
    save_as_draft := false }

/-- C1, counterexample: `create_application` is not atomic.  Its commit
sequence has more than one commit, and the state after the first commit (the
state the database keeps when the audit-log write then raises, since that
first commit is already durable and the rollback only discards uncommitted
work) differs both from the state before the call and from the state after
the full sequence — so a failure in the audit step leaves the new application
persisted with no audit and no timeline rows, contradicting the claimed
all-or-nothing behaviour. -/
theorem create_application_not_atomic_counterexample :
    1 < (create_application_commits emptyStore sampleCreateData ("alice@example.com")).length
    ∧ apply_commits (create_application_commits emptyStore sampleCreateData ("alice@example.com"))
        emptyStore 1 ≠ emptyStore
    ∧ apply_commits (create_application_commits emptyStore sampleCreateData ("alice@example.com"))
        emptyStore 1
      ≠ apply_commits (create_application_commits emptyStore sampleCreateData ("alice@example.com"))
          emptyStore
          (create_application_commits emptyStore sampleCreateData ("alice@example.com")).length := by
  decide

/-- C1, amended: `create_application` does not run in one atomic
transaction; it issues several separate commits — the application row and
its environments first, the audit row second, and each timeline event in a
further commit (three commits for drafts, four otherwise) — so a failure
between commits persists exactly the prefix already committed; in
particular, a failure in the audit step leaves the application stored with
no audit and no timeline rows. -/
theorem create_application_commits_amended :
    ∀ (store : Store) (data : CreateData) (requested_by : String),
      (create_application_commits store data requested_by).length
          = (if data.save_as_draft then 3 else 4)
      ∧ apply_commits (create_application_commits store data requested_by) store 1
          = { store with
              apps := store.apps ++ [created_application store data requested_by],
              environments := store.environments ++ created_environments store data }
      ∧ apply_commits (create_application_commits store data requested_by) store
            (create_application_commits store data requested_by).length
          = { store with
              apps := store.apps ++ [created_application store data requested_by],
              environments := store.environments ++ created_environments store data,
              audits := store.audits ++ [created_audit_row store data requested_by],
              timeline := store.timeline ++ created_timeline_rows store data requested_by } := by
  intro store data requested_by
  cases h : data.save_as_draft <;>
    simp [create_application_commits, created_timeline_rows, apply_commits, h]

/-- Violations propagate: if some character of the list is rewritten by
`str.title`, the transformed list differs from the original. -/
theorem titleAux_ne : ∀ (b : Bool) (l : List Char),
    titleViolationAux b l = true → titleAux b l ≠ l
  | _, [], h => by simp [titleViolationAux] at h
  | b, c :: cs, h => by
    unfold titleViolationAux at h
    unfold titleAux
    simp only [Bool.or_eq_true, Bool.and_eq_true] at h
    intro heq
    have htail := (List.cons.inj heq).2
    have hhead := (List.cons.inj heq).1
    rcases h with ⟨hA, hc⟩ | h
    · rw [if_pos hA] at hhead
      cases b with
      | true =>
        rw [if_pos rfl] at hc hhead
        exact absurd hhead (by simpa using hc)
      | false =>
        rw [if_neg Bool.false_ne_true] at hc hhead
        exact absurd hhead (by simpa using hc)
    · exact titleAux_ne c.isAlpha cs h htail

/-- A string with a title violation is changed by `str.title`. -/
theorem pythonTitle_ne (s : String) (h : hasTitleViolation s = true) :
    pythonTitle s ≠ s :=
  fun heq => titleAux_ne false s.data h (congrArg String.data heq)

/-- Creation payload whose submitted name holds the fully-uppercase
(one-letter) word `X`. -/
def allUpperWordData : CreateData :=
  { sampleCreateData with application_name := "Abc X" }

/-- C10, counterexample: the submitted name `Abc X` holds a fully-uppercase
word (`X`), yet the persisted application name equals the input — a
one-letter uppercase word is a fixed point of `str.title`, so the claimed
"differs for any input containing a fully-uppercase word" fails. -/
theorem title_case_counterexample :
    containsAllUpperWord ("Abc X") = true
    ∧ (created_application emptyStore allUpperWordData ("alice@example.com")).application_name
        = "Abc X" := by
  decide

/-- Extracts the store of a successful firewall creation. -/
def okFirewallStore (r : Except FirewallError (Store × FirewallRequestRow)) : Store :=
  match r with
  | .ok p => p.1
  | .error _ => emptyStore

/-- Fallback firewall request row. -/
def blankFirewallRow : FirewallRequestRow :=
  { id := 0, app_id := 0, source_application_id := 0, collection_name := "",
    application_name_at_submission := "", organization_at_submission := none,
    lob_at_submission := none, requester_email_at_submission := "" }

/-- Extracts the row of a successful firewall creation. -/
def okFirewallRow (r : Except FirewallError (Store × FirewallRequestRow)) :
    FirewallRequestRow :=
  match r with
  | .ok p => p.2
  | .error _ => blankFirewallRow

/-- C10, amended: the persisted application name is the Python `str.title`
transform of the submitted one, so it differs from the input whenever the
input holds an alphabetic character that `str.title` rewrites (a lowercase
letter at a word start, or an uppercase letter right after another letter —
e.g. any fully-uppercase word of length at least two); and a firewall
request's name snapshot copies the stored (already transformed) name of its
source application. -/
theorem create_title_amended :
    (∀ (store : Store) (data : CreateData) (u : String),
      (created_application store data u).application_name
        = pythonTitle data.application_name)
    ∧ (∀ (store : Store) (data : CreateData) (u : String),
        hasTitleViolation data.application_name = true →
        (created_application store data u).application_name ≠ data.application_name)
    ∧ (∀ (store : Store) (payload : FirewallRequestCreate) (u : String)
          (store2 : Store) (row : FirewallRequestRow) (sa : Application),
        create_firewall_request store payload u = .ok (store2, row) →
        resolve_source_application store payload.source_application_id = some sa →
        row.application_name_at_submission = sa.application_name) := by
  refine ⟨fun store data u => rfl,
    fun store data u h => pythonTitle_ne data.application_name h, ?_⟩
  intro store payload u store2 row sa h hres
  simp only [create_firewall_request, hres] at h
  split at h
  · exact Except.noConfusion h
  · split at h
    · exact Except.noConfusion h
    · split at h
      · exact Except.noConfusion h
      · split at h
        · exact Except.noConfusion h
        · injection Except.ok.inj h with hs hr
          rw [← hr]

/-- Sample onboarded application (the firewall source). -/
def sampleOnboardedApp : Application :=
  { id := 1, request_type := .ONBOARDING, app_code := "APP-00001",
    app_slug := some "acme1", application_name := "Acme Portal",
    organization := some "Retail", lob := some "Payments",
    platform := some "Azure", status := .APPROVED,
    current_stage := .SUBSCRIPTION_ASSIGNMENT, requested_by := "alice@example.com",
    approved_by := some "admin@example.com", rejection_reason := none,
    cancelled_by := none, cancellation_reason := none,
    expedite_requested := false, expedite_reason := none, is_editable := false }

/-- Sample environment of the onboarded application. -/
def sampleEnv : AppEnvironment :=
  { id := 1, app_id := 1, environment_name := "PRODUCTION", region := "East US",
    subscription_id := none, is_assigned := false, assigned_by := none }

/-- Store holding one onboarded application with one environment. -/
def sampleFirewallStore : Store :=
  { emptyStore with apps := [sampleOnboardedApp], environments := [sampleEnv] }

/-- Sample validated network rule. -/
def sampleNetworkRule : NetworkRuleInput :=
  { name := "allow-web", protocols := ["TCP"],
    source_ip_addresses := ["10.0.0.0/24"], source_ip_groups := [],
    destination_ip_addresses := ["10.1.0.5"], destination_ip_groups := [],
    destination_ports := ["443"], destination_fqdns := [] }

/-- Sample firewall creation payload with one network rule group. -/
def sampleFirewallPayload : FirewallRequestCreate :=
  { source_application_id := 1, collection_name := "acme-web",
    environment_scopes := ["PROD"],
    application_rules := none,
    network_rules := some { action := "Allow", priority := none,
                            rules := [sampleNetworkRule] },
    nat_rules := none }

/-- Witness for the amended C10 theorem: creation rewrites the
title-violating name of the sample payload, and the concrete firewall
creation snapshots the stored source name. -/
theorem create_title_amended_witness :
    (created_application emptyStore sampleCreateData ("alice@example.com")).application_name
        ≠ sampleCreateData.application_name
    ∧ (okFirewallRow (create_firewall_request sampleFirewallStore sampleFirewallPayload
        ("alice@example.com"))).application_name_at_submission
        = sampleOnboardedApp.application_name :=
  ⟨create_title_amended.2.1 emptyStore sampleCreateData ("alice@example.com") (by decide),
   create_title_amended.2.2 sampleFirewallStore sampleFirewallPayload ("alice@example.com")
     (okFirewallStore (create_firewall_request sampleFirewallStore sampleFirewallPayload
       ("alice@example.com")))
     (okFirewallRow (create_firewall_request sampleFirewallStore sampleFirewallPayload
       ("alice@example.com")))
     sampleOnboardedApp (by decide) (by decide)⟩

/-- The slug-conflict condition of `create_application` is off for FIREWALL
payloads. -/
theorem fw_beq_onboarding : (RequestType.FIREWALL == RequestType.ONBOARDING) = false := rfl

/-- C2: a firewall creation is rejected with the structured duplicate error —
listing each conflicting entry together with its owning request and
application — exactly when some submitted duplicate key matches an existing
rule entry whose owning application is not REJECTED/CANCELLED/FAILED, and
nothing is persisted in that case (the duplicate check is the first step of
the operation, before any write); when every matching entry is owned by a
terminal application (and the source application and scopes are valid), the
creation succeeds. -/
theorem create_firewall_request_duplicate_check :
    (∀ (store : Store) (keys : List String) (e : FirewallRuleEntry)
        (r : FirewallRequestRow) (a : Application),
      (e, r, a) ∈ find_duplicates store keys ↔
        e ∈ store.rule_entries ∧ e.duplicate_key ∈ keys
        ∧ store.firewall_requests.find? (fun x => x.id == e.firewall_request_id) = some r
        ∧ store.apps.find? (fun x => x.id == r.app_id) = some a
        ∧ isTerminalStatus a.status = false)
    ∧ (∀ (store : Store) (payload : FirewallRequestCreate) (u : String),
        find_duplicates store (payload_duplicate_keys payload) ≠ [] →
        create_firewall_request store payload u
          = .error (.duplicate (find_duplicates store (payload_duplicate_keys payload))))
    ∧ (∀ (store : Store) (payload : FirewallRequestCreate) (u : String) (sa : Application),
        (∀ e, e ∈ store.rule_entries →
          e.duplicate_key ∈ payload_duplicate_keys payload →
          ∀ r, store.firewall_requests.find? (fun x => x.id == e.firewall_request_id)
            = some r →
          ∀ a, store.apps.find? (fun x => x.id == r.app_id) = some a →
          isTerminalStatus a.status = true) →
        resolve_source_application store payload.source_application_id = some sa →
        sa.request_type = RequestType.ONBOARDING →
        (normalized_scopes payload.environment_scopes).filter
          (fun s => !((available_scopes store sa.id).contains s)) = [] →
        ∃ store2 row, create_firewall_request store payload u = .ok (store2, row)) := by
  refine ⟨?_, ?_, ?_⟩
  · intro store keys e r a
    unfold find_duplicates
    by_cases hk : keys.isEmpty
    · rw [if_pos hk]
      have hkeys : keys = [] := List.isEmpty_iff.mp hk
      subst hkeys
      simp
    · rw [if_neg hk]
      rw [List.mem_filterMap]
      constructor
      · rintro ⟨e0, he0, hf⟩
        split at hf
        next hkey =>
          split at hf
          next r0 heqr =>
            split at hf
            next a0 heqa =>
              split at hf
              next hterm0 => exact absurd hf (by simp)
              next hterm0 =>
                simp only [Option.some.injEq, Prod.mk.injEq] at hf
                obtain ⟨h1, h2, h3⟩ := hf
                subst h1; subst h2; subst h3
                exact ⟨he0, hkey, heqr, heqa, by simpa using hterm0⟩
            next heqa => exact absurd hf (by simp)
          next heqr => exact absurd hf (by simp)
        next hkey => exact absurd hf (by simp)
      · rintro ⟨hmem, hkey, hfr, hap, hterm⟩
        refine ⟨e, hmem, ?_⟩
        rw [if_pos hkey]
        simp [hfr, hap, hterm]
  · intro store payload u hne
    have hemp : (find_duplicates store (payload_duplicate_keys payload)).isEmpty = false := by
      rcases hfd : find_duplicates store (payload_duplicate_keys payload) with _ | ⟨x, xs⟩
      · exact absurd hfd hne
      · rfl
    simp [create_firewall_request, hemp]
  · intro store payload u sa hterm hres htype hscopes
    have hdup : find_duplicates store (payload_duplicate_keys payload) = [] := by
      unfold find_duplicates
      split
      · rfl
      · rw [List.filterMap_eq_nil_iff]
        intro e he
        by_cases hkd : e.duplicate_key ∈ payload_duplicate_keys payload
        · rw [if_pos hkd]
          rcases hf : store.firewall_requests.find?
              (fun x => x.id == e.firewall_request_id) with _ | r
          · simp [hf]
          · rcases ha : store.apps.find? (fun x => x.id == r.app_id) with _ | a
            · simp [hf, ha]
            · simp [hf, ha, hterm e he hkd r hf a ha]
        · rw [if_neg hkd]
    simp only [create_firewall_request, hdup, hres, htype, hscopes,
      List.isEmpty_nil, create_application, fw_beq_onboarding, Bool.false_and,
      Bool.false_eq_true, if_false, ne_eq, not_true_eq_false]
    exact ⟨_, _, rfl⟩

/-- Sample tracking application of an already-stored firewall request. -/
def sampleTrackingApp : Application :=
  { id := 2, request_type := .FIREWALL, app_code := "FW-00002",
    app_slug := none, application_name := "Acme Portal",
    organization := some "Retail", lob := some "Payments",
    platform := some "Azure", status := .PENDING,
    current_stage := .PENDING_APPROVAL, requested_by := "alice@example.com",
    approved_by := none, rejection_reason := none,
    cancelled_by := none, cancellation_reason := none,
    expedite_requested := false, expedite_reason := none, is_editable := false }

/-- Sample stored firewall request owned by the tracking application. -/
def sampleFirewallRequestRow : FirewallRequestRow :=
  { id := 1, app_id := 2, source_application_id := 1, collection_name := "acme-web",
    application_name_at_submission := "Acme Portal",
    organization_at_submission := some "Retail",
    lob_at_submission := some "Payments",
    requester_email_at_submission := "alice@example.com" }

/-- Sample stored NETWORK rule collection with the baseline priority. -/
def sampleNetworkCollection : FirewallRuleCollection :=
  { id := 1, firewall_request_id := 1, collection_type := "NETWORK",
    action := "Allow", priority := 6500 }

/-- Sample stored rule entry whose duplicate key matches the sample payload. -/
def sampleDuplicateEntry : FirewallRuleEntry :=
  { id := 1, firewall_request_id := 1, rule_collection_id := 1, name := "allow-web",
    collection_type := "NETWORK",
    duplicate_key := build_duplicate_key ("NETWORK") (.networkRule sampleNetworkRule) }

/-- Store already holding the sample rule under a live (PENDING) application. -/
def dupStore : Store :=
  { emptyStore with
    apps := [sampleOnboardedApp, sampleTrackingApp],
    environments := [sampleEnv],
    firewall_requests := [sampleFirewallRequestRow],
    rule_collections := [sampleNetworkCollection],
    rule_entries := [sampleDuplicateEntry] }

/-- Witness for the C2 theorem: resubmitting the sample rule against a live
history is rejected with the duplicate error, and submitting it against an
empty history succeeds. -/
theorem create_firewall_request_duplicate_check_witness :
    create_firewall_request dupStore sampleFirewallPayload ("bob@example.com")
        = .error (.duplicate (find_duplicates dupStore
            (payload_duplicate_keys sampleFirewallPayload)))
    ∧ (∃ store2 row, create_firewall_request sampleFirewallStore sampleFirewallPayload
        ("alice@example.com") = .ok (store2, row)) :=
  ⟨create_firewall_request_duplicate_check.2.1 dupStore sampleFirewallPayload
      ("bob@example.com") (by decide),
   create_firewall_request_duplicate_check.2.2 sampleFirewallStore sampleFirewallPayload
      ("alice@example.com") sampleOnboardedApp
      (fun e he => absurd he (List.not_mem_nil e))
      (by decide) (by decide) (by decide)⟩

/-- C3: for every rule group of a firewall creation, an explicitly supplied
priority is used exactly; otherwise the first collection for a
`(source application, collection type)` pair gets the baseline
(APPLICATION 400, NETWORK 6500, NAT 100) and later ones get the previous
maximum plus 100, capped at 65000 — where "no prior collection exists" is
exactly `get_max_priority_for_source` returning `none`. -/
theorem determine_priority_allocation :
    (∀ (store : Store) (src : Nat) (ct : String) (p : Nat),
      determine_priority store src ct (some p) = p)
    ∧ (∀ (store : Store) (src : Nat),
        get_max_priority_for_source store src ("APPLICATION") = none →
        determine_priority store src ("APPLICATION") none = 400)
    ∧ (∀ (store : Store) (src : Nat),
        get_max_priority_for_source store src ("NETWORK") = none →
        determine_priority store src ("NETWORK") none = 6500)
    ∧ (∀ (store : Store) (src : Nat),
        get_max_priority_for_source store src ("NAT") = none →
        determine_priority store src ("NAT") none = 100)
    ∧ (∀ (store : Store) (src : Nat) (ct : String) (m : Nat),
        get_max_priority_for_source store src ct = some m →
        determine_priority store src ct none = min 65000 (m + PRIORITY_INCREMENT))
    ∧ (∀ (store : Store) (src : Nat) (ct : String),
        get_max_priority_for_source store src ct = none ↔
        ∀ c, c ∈ store.rule_collections →
        ∀ r, store.firewall_requests.find? (fun x => x.id == c.firewall_request_id)
          = some r →
        (r.source_application_id == src && c.collection_type == ct) = false) := by
  refine ⟨fun store src ct p => rfl, ?_, ?_, ?_, ?_, ?_⟩
  · intro store src h
    simp only [determine_priority, h]
    rfl
  · intro store src h
    simp only [determine_priority, h]
    rfl
  · intro store src h
    simp only [determine_priority, h]
    rfl
  · intro store src ct m h
    simp only [determine_priority, h]
  · intro store src ct
    unfold get_max_priority_for_source
    rw [List.max?_eq_none_iff, List.filterMap_eq_nil_iff]
    constructor
    · intro h c hc r hr
      have hthis := h c hc
      simp only [hr] at hthis
      cases hcond : (r.source_application_id == src && c.collection_type == ct) with
      | false => rfl
      | true =>
        rw [if_pos hcond] at hthis
        exact absurd hthis (by simp)
    · intro h c hc
      rcases hr : store.firewall_requests.find?
          (fun x => x.id == c.firewall_request_id) with _ | r
      · simp only [hr]
      · simp only [hr]
        rw [if_neg (by simp [h c hc r hr])]

/-- Store with one stored NETWORK collection at the baseline priority for the
sample source application. -/
def priorityStore : Store :=
  { emptyStore with
    apps := [sampleOnboardedApp, sampleTrackingApp],
    firewall_requests := [sampleFirewallRequestRow],
    rule_collections := [sampleNetworkCollection] }

/-- Witness for the C3 theorem: the explicit priority wins; first NETWORK
collection gets 6500, the next one 6600; APPLICATION and NAT baselines are
400 and 100. -/
theorem determine_priority_allocation_witness :
    determine_priority priorityStore 1 ("NETWORK") (some 6700) = 6700
    ∧ determine_priority emptyStore 1 ("APPLICATION") none = 400
    ∧ determine_priority emptyStore 1 ("NETWORK") none = 6500
    ∧ determine_priority emptyStore 1 ("NAT") none = 100
    ∧ determine_priority priorityStore 1 ("NETWORK") none
        = min 65000 (6500 + PRIORITY_INCREMENT) :=
  ⟨determine_priority_allocation.1 priorityStore 1 ("NETWORK") 6700,
   determine_priority_allocation.2.1 emptyStore 1 (by decide),
   determine_priority_allocation.2.2.1 emptyStore 1 (by decide),
   determine_priority_allocation.2.2.2.1 emptyStore 1 (by decide),
   determine_priority_allocation.2.2.2.2.1 priorityStore 1 ("NETWORK") 6500 (by decide)⟩

/-- Replacing the found row by one with the same id makes `find?` return the
replacement. -/
theorem find?_map_replace (l : List Application) (i : Nat) (app a2 : Application)
    (h : l.find? (fun b => b.id == i) = some app) (hid : a2.id = app.id) :
    (l.map (fun b => if b.id == a2.id then a2 else b)).find? (fun b => b.id == i)
      = some a2 := by
  have happi : (app.id == i) = true :=
    List.find?_some (p := fun b : Application => b.id == i) h
  have happid : app.id = i := by simpa using happi
  induction l with
  | nil => simp [List.find?] at h
  | cons c rest ih =>
    by_cases hc : (c.id == i) = true
    · rw [List.find?_cons_of_pos (p := fun b : Application => b.id == i) rest hc] at h
      have hcapp : c = app := Option.some.inj h
      subst hcapp
      have hhead : (c.id == a2.id) = true := by simp [hid]
      rw [List.map_cons, if_pos hhead]
      exact List.find?_cons_of_pos (p := fun b : Application => b.id == i) _
        (by simpa [hid] using happi)
    · rw [List.find?_cons_of_neg (p := fun b : Application => b.id == i) rest hc] at h
      have hcne : ¬ (c.id == a2.id) = true := by
        intro hcontra
        apply hc
        have hEq : c.id = a2.id := by simpa using hcontra
        simp [hEq, hid, happid]
      rw [List.map_cons, if_neg hcne]
      rw [List.find?_cons_of_neg (p := fun b : Application => b.id == i) _ hc]
      exact ih h

/-- `get_by_id` after an in-place row mutation returns the mutated row. -/
theorem get_by_id_replace (store : Store) (i : Nat) (app a2 : Application)
    (h : get_by_id store i = some app) (hid : a2.id = app.id) :
    get_by_id (replace_app store a2) i = some a2 :=
  find?_map_replace store.apps i app a2 h hid

/-- Sample PENDING onboarding application. -/
def pendingApp : Application :=
  { sampleOnboardedApp with
    status := .PENDING, current_stage := .PENDING_APPROVAL,
    approved_by := none }

/-- Store holding the sample PENDING application. -/
def pendingStore : Store :=
  { emptyStore with apps := [pendingApp], environments := [sampleEnv] }

/-- C5, counterexample: approving a PENDING request appends three timeline
events (completion of PENDING_APPROVAL, completion of APPROVED, start of
SUBSCRIPTION_ASSIGNMENT), not the claimed exactly two. -/
theorem approve_three_events_counterexample :
    pendingStore.timeline.length = 0
    ∧ (approve_request pendingStore 1 ("admin@example.com") true true none).map
        (fun p => p.1.timeline.length) = Except.ok 3 := by
  decide

/-- C5, amended: approve/reject requires status PENDING (a state error
otherwise) and a rejection reason when rejecting; approval sets APPROVED with
stage SUBSCRIPTION_ASSIGNMENT and rejection sets REJECTED with stage
REJECTED; but approval appends three timeline events (PENDING_APPROVAL
COMPLETED, APPROVED COMPLETED, SUBSCRIPTION_ASSIGNMENT IN_PROGRESS) rather
than two, and rejection appends two FAILED events (PENDING_APPROVAL,
REJECTED) rather than a completion-and-start pair. -/
theorem approve_request_amended :
    (∀ (store : Store) (id : Nat) (u : String) (reason : Option String),
      reason = none ∨ reason = some "" →
      approve_request store id u true false reason
        = .error ⟨400, "Rejection reason is required when rejecting a request"⟩)
    ∧ (∀ (store : Store) (id : Nat) (u : String) (approved : Bool)
          (reason : Option String) (v : Bool × Option String) (app : Application),
        validate_approval approved reason = .ok v →
        get_by_id store id = some app →
        app.status ≠ RequestStatus.PENDING →
        approve_request store id u true approved reason
          = .error ⟨400, "Request already " ++ statusValue app.status⟩)
    ∧ (∀ (store : Store) (id : Nat) (u : String) (app : Application),
        get_by_id store id = some app →
        app.status = RequestStatus.PENDING →
        approve_request store id u true true none
          = .ok ({ replace_app store { app with
                     status := .APPROVED, approved_by := some u,
                     current_stage := .SUBSCRIPTION_ASSIGNMENT } with
                   timeline := store.timeline ++
                     [{ app_id := id, stage := .PENDING_APPROVAL, status := "COMPLETED",
                        message := some ("Request approved by " ++ u),
                        performed_by := some u },
                      { app_id := id, stage := .APPROVED, status := "COMPLETED",
                        message := some ("Request approved by " ++ u),
                        performed_by := some u },
                      { app_id := id, stage := .SUBSCRIPTION_ASSIGNMENT,
                        status := "IN_PROGRESS",
                        message := some ("Subscription assignment started"),
                        performed_by := some u }] },
                 { app with
                   status := .APPROVED, approved_by := some u,
                   current_stage := .SUBSCRIPTION_ASSIGNMENT }))
    ∧ (∀ (store : Store) (id : Nat) (u : String) (app : Application) (r : String),
        get_by_id store id = some app →
        app.status = RequestStatus.PENDING →
        r ≠ "" →
        approve_request store id u true false (some r)
          = .ok ({ replace_app store { app with
                     status := .REJECTED, approved_by := some u,
                     rejection_reason := some (pythonStrip r),
                     current_stage := .REJECTED } with
                   timeline := store.timeline ++
                     [{ app_id := id, stage := .PENDING_APPROVAL, status := "FAILED",
                        message := some ("Request rejected by " ++ u ++ ": "
                          ++ pythonStrip r),
                        performed_by := some u },
                      { app_id := id, stage := .REJECTED, status := "FAILED",
                        message := some ("Request rejected by " ++ u ++ ": "
                          ++ pythonStrip r),
                        performed_by := some u }] },
                 { app with
                   status := .REJECTED, approved_by := some u,
                   rejection_reason := some (pythonStrip r),
                   current_stage := .REJECTED })) := by
  refine ⟨?_, ?_, ?_, ?_⟩
  · rintro store id u reason (rfl | rfl) <;> rfl
  · intro store id u approved reason v app hval happ hstat
    simp only [approve_request, hval, happ]
    rw [if_neg (by simp), if_pos hstat]
  · intro store id u app happ hstat
    have hval : validate_approval true none = Except.ok (true, none) := rfl
    simp only [approve_request, hval, happ]
    rw [hstat]
    rfl
  · intro store id u app r happ hstat hr
    have hval : validate_approval false (some r) = .ok (false, some (pythonStrip r)) := by
      unfold validate_approval
      rw [if_neg (by simp [hr])]
      simp [hr]
    simp only [approve_request, hval, happ]
    rw [hstat]
    rfl

/-- Witness for the amended C5 theorem at the sample PENDING application. -/
theorem approve_request_amended_witness :
    approve_request pendingStore 1 ("admin@example.com") true false none
        = .error ⟨400, "Rejection reason is required when rejecting a request"⟩
    ∧ approve_request sampleFirewallStore 1 ("admin@example.com") true true none
        = .error ⟨400, "Request already " ++ statusValue sampleOnboardedApp.status⟩
    ∧ (approve_request pendingStore 1 ("admin@example.com") true true none).map
        (fun p => (p.2.status, p.2.current_stage, p.1.timeline.length))
        = Except.ok (RequestStatus.APPROVED, WorkflowStage.SUBSCRIPTION_ASSIGNMENT, 3)
    ∧ (approve_request pendingStore 1 ("admin@example.com") true false
          (some "too broad")).map
        (fun p => (p.2.status, p.2.current_stage, p.1.timeline.length))
        = Except.ok (RequestStatus.REJECTED, WorkflowStage.REJECTED, 2) := by
  refine ⟨?_, ?_, ?_, ?_⟩
  · exact approve_request_amended.1 pendingStore 1 ("admin@example.com") none (Or.inl rfl)
  · exact approve_request_amended.2.1 sampleFirewallStore 1 ("admin@example.com") true none
      (true, none) sampleOnboardedApp (by decide) (by decide) (by decide)
  · rw [approve_request_amended.2.2.1 pendingStore 1 ("admin@example.com") pendingApp
      (by decide) (by decide)]
    rfl
  · rw [approve_request_amended.2.2.2 pendingStore 1 ("admin@example.com") pendingApp
      ("too broad") (by decide) (by decide) (by decide)]
    rfl

/-- C4: `assign_subscriptions` requires status APPROVED; a call that leaves
some environment unassigned returns with the application row, stage, status
and timeline untouched; a call that assigns the last environment while the
stage is still SUBSCRIPTION_ASSIGNMENT advances stage to FOUNDATION_INFRA
and status to FOUNDATION_INFRA_PROVISIONING and appends exactly the
completion/start timeline pair; and a second identical call against that
advanced state fails with the approval-state error, leaving the stage
untouched. -/
theorem assign_subscriptions_behavior :
    (∀ (store : Store) (id : Nat) (u : String) (asg : List SubscriptionAssignment)
        (app : Application),
      get_by_id store id = some app →
      app.status ≠ RequestStatus.APPROVED →
      assign_subscriptions store id u true asg
        = .error ⟨400, "Request must be approved first"⟩)
    ∧ (∀ (store : Store) (id : Nat) (u : String) (asg : List SubscriptionAssignment)
          (app : Application),
        get_by_id store id = some app →
        app.status = RequestStatus.APPROVED →
        asg.isEmpty = false →
        ((asg.foldl (apply_assignment id u) store.environments).filter
          (fun e => e.app_id == id)).all (fun e => e.is_assigned) = false →
        assign_subscriptions store id u true asg
          = .ok ({ replace_app store app with
                   environments := asg.foldl (apply_assignment id u) store.environments,
                   timeline := store.timeline ++ [] },
                 false, app.current_stage))
    ∧ (∀ (store : Store) (id : Nat) (u : String) (asg : List SubscriptionAssignment)
          (app : Application),
        get_by_id store id = some app →
        app.status = RequestStatus.APPROVED →
        asg.isEmpty = false →
        ((asg.foldl (apply_assignment id u) store.environments).filter
          (fun e => e.app_id == id)).all (fun e => e.is_assigned) = true →
        app.current_stage = WorkflowStage.SUBSCRIPTION_ASSIGNMENT →
        assign_subscriptions store id u true asg
          = .ok ({ replace_app store { app with
                     current_stage := .FOUNDATION_INFRA,
                     status := .FOUNDATION_INFRA_PROVISIONING } with
                   environments := asg.foldl (apply_assignment id u) store.environments,
                   timeline := store.timeline ++
                     [{ app_id := id, stage := .SUBSCRIPTION_ASSIGNMENT,
                        status := "COMPLETED",
                        message := some ("Subscriptions assigned to all environments"),
                        performed_by := some u },
                      { app_id := id, stage := .FOUNDATION_INFRA, status := "IN_PROGRESS",
                        message := some ("Foundation infrastructure provisioning started"),
                        performed_by := some u }] },
                 true, WorkflowStage.FOUNDATION_INFRA))
    ∧ (∀ (store : Store) (id : Nat) (u : String) (asg : List SubscriptionAssignment)
          (app : Application) (u2 : String) (asg2 : List SubscriptionAssignment),
        get_by_id store id = some app →
        assign_subscriptions
          ({ replace_app store { app with
               current_stage := .FOUNDATION_INFRA,
               status := .FOUNDATION_INFRA_PROVISIONING } with
             environments := asg.foldl (apply_assignment id u) store.environments,
             timeline := store.timeline ++
               [{ app_id := id, stage := .SUBSCRIPTION_ASSIGNMENT, status := "COMPLETED",
                  message := some ("Subscriptions assigned to all environments"),
                  performed_by := some u },
                { app_id := id, stage := .FOUNDATION_INFRA, status := "IN_PROGRESS",
                  message := some ("Foundation infrastructure provisioning started"),
                  performed_by := some u }] })
          id u2 true asg2
          = .error ⟨400, "Request must be approved first"⟩) := by
  refine ⟨?_, ?_, ?_, ?_⟩
  · intro store id u asg app happ hstat
    simp only [assign_subscriptions, happ]
    rw [if_pos hstat]
    rfl
  · intro store id u asg app happ hstat hne hall
    simp only [assign_subscriptions, happ, hne, hall, Bool.false_and]
    rw [hstat]
    rfl
  · intro store id u asg app happ hstat hne hall hstage
    simp only [assign_subscriptions, happ, hne, hall, hstage, Bool.true_and]
    rw [hstat]
    rfl
  · intro store id u asg app u2 asg2 happ
    have hget2 : get_by_id
        ({ replace_app store { app with
             current_stage := .FOUNDATION_INFRA,
             status := .FOUNDATION_INFRA_PROVISIONING } with
           environments := asg.foldl (apply_assignment id u) store.environments,
           timeline := store.timeline ++
             [{ app_id := id, stage := .SUBSCRIPTION_ASSIGNMENT, status := "COMPLETED",
                message := some ("Subscriptions assigned to all environments"),
                performed_by := some u },
              { app_id := id, stage := .FOUNDATION_INFRA, status := "IN_PROGRESS",
                message := some ("Foundation infrastructure provisioning started"),
                performed_by := some u }] })
        id = some { app with
                    current_stage := .FOUNDATION_INFRA,
                    status := .FOUNDATION_INFRA_PROVISIONING } :=
      find?_map_replace store.apps id app _ happ rfl
    simp only [assign_subscriptions, hget2]
    rfl

/-- First environment of the assignment sample. -/
def envA : AppEnvironment :=
  { id := 1, app_id := 1, environment_name := "DEVELOPMENT", region := "East US",
    subscription_id := none, is_assigned := false, assigned_by := none }

/-- Second environment of the assignment sample. -/
def envB : AppEnvironment :=
  { id := 2, app_id := 1, environment_name := "PRODUCTION", region := "East US",
    subscription_id := none, is_assigned := false, assigned_by := none }

/-- Store with the APPROVED sample application and two unassigned
environments. -/
def assignStore : Store :=
  { emptyStore with apps := [sampleOnboardedApp], environments := [envA, envB] }

/-- Assignment of the first environment only. -/
def asgOne : List SubscriptionAssignment :=
  [{ env_id := some 1, subscription_id := some "sub-aaa" }]

/-- Assignment of both environments. -/
def asgBoth : List SubscriptionAssignment :=
  [{ env_id := some 1, subscription_id := some "sub-aaa" },
   { env_id := some 2, subscription_id := some "sub-bbb" }]

/-- Extracts the store of a successful subscription assignment. -/
def okAssignStore (r : Except ApiError (Store × Bool × WorkflowStage)) : Store :=
  match r with
  | .ok p => p.1
  | .error _ => emptyStore

/-- Witness for the C4 theorem: a PENDING application is refused, a partial
assignment keeps the stage, assigning both environments advances once with
the timeline pair, and the identical second call fails with the state
error. -/
theorem assign_subscriptions_behavior_witness :
    assign_subscriptions pendingStore 1 ("admin@example.com") true asgOne
        = .error ⟨400, "Request must be approved first"⟩
    ∧ (assign_subscriptions assignStore 1 ("admin@example.com") true asgOne).map
        (fun p => (p.2.1, p.2.2))
        = Except.ok (false, WorkflowStage.SUBSCRIPTION_ASSIGNMENT)
    ∧ (assign_subscriptions assignStore 1 ("admin@example.com") true asgBoth).map
        (fun p => (p.2.1, p.2.2, p.1.timeline.length))
        = Except.ok (true, WorkflowStage.FOUNDATION_INFRA, 2)
    ∧ assign_subscriptions
        (okAssignStore (assign_subscriptions assignStore 1 ("admin@example.com") true
          asgBoth))
        1 ("admin@example.com") true asgBoth
        = .error ⟨400, "Request must be approved first"⟩ := by
  refine ⟨?_, ?_, ?_, ?_⟩
  · exact assign_subscriptions_behavior.1 pendingStore 1 ("admin@example.com") asgOne
      pendingApp (by decide) (by decide)
  · rw [assign_subscriptions_behavior.2.1 assignStore 1 ("admin@example.com") asgOne
      sampleOnboardedApp (by decide) (by decide) (by decide) (by decide)]
    rfl
  · rw [assign_subscriptions_behavior.2.2.1 assignStore 1 ("admin@example.com") asgBoth
      sampleOnboardedApp (by decide) (by decide) (by decide) (by decide) (by decide)]
    rfl
  · rw [assign_subscriptions_behavior.2.2.1 assignStore 1 ("admin@example.com") asgBoth
      sampleOnboardedApp (by decide) (by decide) (by decide) (by decide) (by decide)]
    exact assign_subscriptions_behavior.2.2.2 assignStore 1 ("admin@example.com") asgBoth
      sampleOnboardedApp ("admin@example.com") asgBoth (by decide)

/-- C7: once a cancel succeeds, the stored application is CANCELLED in both
status and stage, and every later submit, (validated) approve, or
assign-subscriptions call on it fails with the corresponding state error —
CANCELLED is terminal for forward progress.  (The admin-only endpoints are
taken with an admin caller; a non-admin caller is refused even earlier with
the authorization error.) -/
theorem cancel_application_terminal :
    ∀ (store : Store) (id : Nat) (u : String) (adm : Bool) (reason : String)
      (store2 : Store) (app2 : Application),
      cancel_application store id u adm reason = .ok (store2, app2) →
      app2.status = RequestStatus.CANCELLED
      ∧ app2.current_stage = WorkflowStage.CANCELLED
      ∧ get_by_id store2 id = some app2
      ∧ (∀ (u2 : String) (adm2 : Bool), submit_application store2 id u2 adm2
          = .error (.valueError ("Only draft requests can be submitted for approval")))
      ∧ (∀ (u2 : String) (approved : Bool) (reason2 : Option String)
            (v : Bool × Option String),
          validate_approval approved reason2 = .ok v →
          approve_request store2 id u2 true approved reason2
            = .error ⟨400, "Request already CANCELLED"⟩)
      ∧ (∀ (u2 : String) (asg : List SubscriptionAssignment),
          assign_subscriptions store2 id u2 true asg
            = .error ⟨400, "Request must be approved first"⟩) := by
  intro store id u adm reason store2 app2 h
  unfold cancel_application at h
  split at h
  · exact Except.noConfusion h
  next application heqget =>
    split at h
    · exact Except.noConfusion h
    · split at h
      · exact Except.noConfusion h
      · injection Except.ok.inj h with hs ha
        have hget2 : get_by_id store2 id = some app2 := by
          rw [← hs, ← ha]
          exact find?_map_replace store.apps id application _ heqget rfl
        have hstat2 : app2.status = RequestStatus.CANCELLED := by rw [← ha]
        have hstage2 : app2.current_stage = WorkflowStage.CANCELLED := by rw [← ha]
        refine ⟨hstat2, hstage2, hget2, ?_, ?_, ?_⟩
        · intro u2 adm2
          simp only [submit_application, hget2]
          rw [if_pos (by rw [hstat2]; exact fun hcon => RequestStatus.noConfusion hcon)]
        · intro u2 approved reason2 v hval
          simp only [approve_request, hval, hget2]
          rw [hstat2]
          rfl
        · intro u2 asg
          simp only [assign_subscriptions, hget2]
          rw [hstat2]
          rfl

/-- Sample DRAFT application. -/
def draftApp : Application :=
  { pendingApp with
    status := .DRAFT, current_stage := .REQUEST_RAISED, is_editable := true }

/-- Store holding the sample DRAFT application. -/
def draftStore : Store :=
  { emptyStore with apps := [draftApp], environments := [sampleEnv] }

/-- Fallback application row. -/
def blankApplication : Application :=
  { id := 0, request_type := .ONBOARDING, app_code := "", app_slug := none,
    application_name := "", organization := none, lob := none, platform := none,
    status := .DRAFT, current_stage := .REQUEST_RAISED, requested_by := "",
    approved_by := none, rejection_reason := none, cancelled_by := none,
    cancellation_reason := none, expedite_requested := false,
    expedite_reason := none, is_editable := true }

/-- Extracts the store of a successful service call. -/
def okServiceStore (r : Except ServiceError (Store × Application)) : Store :=
  match r with
  | .ok p => p.1
  | .error _ => emptyStore

/-- Extracts the application of a successful service call. -/
def okServiceApp (r : Except ServiceError (Store × Application)) : Application :=
  match r with
  | .ok p => p.2
  | .error _ => blankApplication

/-- Witness for the C7 theorem: the requester cancels the sample draft, after
which submit, approve and assign-subscriptions all fail with state errors. -/
theorem cancel_application_terminal_witness :
    (okServiceApp (cancel_application draftStore 1 ("alice@example.com") false
        ("obsolete"))).status = RequestStatus.CANCELLED
    ∧ submit_application (okServiceStore (cancel_application draftStore 1
        ("alice@example.com") false ("obsolete"))) 1 ("alice@example.com") false
        = .error (.valueError ("Only draft requests can be submitted for approval"))
    ∧ approve_request (okServiceStore (cancel_application draftStore 1
        ("alice@example.com") false ("obsolete"))) 1 ("admin@example.com") true true none
        = .error ⟨400, "Request already CANCELLED"⟩
    ∧ assign_subscriptions (okServiceStore (cancel_application draftStore 1
        ("alice@example.com") false ("obsolete"))) 1 ("admin@example.com") true asgOne
        = .error ⟨400, "Request must be approved first"⟩ := by
  have hc := cancel_application_terminal draftStore 1 ("alice@example.com") false
    ("obsolete")
    (okServiceStore (cancel_application draftStore 1 ("alice@example.com") false
      ("obsolete")))
    (okServiceApp (cancel_application draftStore 1 ("alice@example.com") false
      ("obsolete")))
    (by rfl)
  exact ⟨hc.1, hc.2.2.2.1 ("alice@example.com") false,
    hc.2.2.2.2.1 ("admin@example.com") true none (true, none) rfl,
    hc.2.2.2.2.2 ("admin@example.com") asgOne⟩

/-- C8: submit moves a DRAFT application to PENDING / PENDING_APPROVAL and
locks editing; a missing application or a non-DRAFT status is a
`ValueError`, an actor who is neither requester nor admin gets a
`PermissionError` (on a DRAFT application — the status check runs first), and
a second submit always fails with the state error because the status is no
longer DRAFT. -/
theorem submit_application_contract :
    (∀ (store : Store) (id : Nat) (u : String) (adm : Bool),
      get_by_id store id = none →
      submit_application store id u adm
        = .error (.valueError ("Application " ++ natToString id ++ " not found")))
    ∧ (∀ (store : Store) (id : Nat) (u : String) (adm : Bool) (app : Application),
        get_by_id store id = some app →
        app.status ≠ RequestStatus.DRAFT →
        submit_application store id u adm
          = .error (.valueError ("Only draft requests can be submitted for approval")))
    ∧ (∀ (store : Store) (id : Nat) (u : String) (app : Application),
        get_by_id store id = some app →
        app.status = RequestStatus.DRAFT →
        app.requested_by ≠ u →
        submit_application store id u false
          = .error (.permissionError ("You are not authorized to submit this request")))
    ∧ (∀ (store : Store) (id : Nat) (u : String) (adm : Bool) (app : Application),
        get_by_id store id = some app →
        app.status = RequestStatus.DRAFT →
        app.requested_by = u ∨ adm = true →
        submit_application store id u adm
          = .ok ({ replace_app store { app with
                     status := .PENDING, current_stage := .PENDING_APPROVAL,
                     is_editable := false } with
                   audits := store.audits ++
                     [{ request_type := "SUBMIT", app_id := id, user_email := u,
                        action := "Submitted request " ++ app.app_code
                          ++ " for approval",
                        details := some ("Request moved to pending approval") }],
                   timeline := store.timeline ++
                     [{ app_id := id, stage := .PENDING_APPROVAL,
                        status := "IN_PROGRESS",
                        message := some ("Request submitted for approval"),
                        performed_by := some u }] },
                 { app with
                   status := .PENDING, current_stage := .PENDING_APPROVAL,
                   is_editable := false }))
    ∧ (∀ (store : Store) (id : Nat) (u : String) (app : Application)
          (u2 : String) (adm2 : Bool),
        get_by_id store id = some app →
        submit_application
          ({ replace_app store { app with
               status := .PENDING, current_stage := .PENDING_APPROVAL,
               is_editable := false } with
             audits := store.audits ++
               [{ request_type := "SUBMIT", app_id := id, user_email := u,
                  action := "Submitted request " ++ app.app_code ++ " for approval",
                  details := some ("Request moved to pending approval") }],
             timeline := store.timeline ++
               [{ app_id := id, stage := .PENDING_APPROVAL, status := "IN_PROGRESS",
                  message := some ("Request submitted for approval"),
                  performed_by := some u }] })
          id u2 adm2
          = .error (.valueError ("Only draft requests can be submitted for approval"))) := by
  refine ⟨?_, ?_, ?_, ?_, ?_⟩
  · intro store id u adm hnone
    simp only [submit_application, hnone]
  · intro store id u adm app happ hstat
    simp only [submit_application, happ]
    rw [if_pos hstat]
  · intro store id u app happ hstat hperm
    simp only [submit_application, happ]
    rw [hstat]
    rw [if_neg (fun hne => hne rfl)]
    rw [if_pos ⟨hperm, trivial⟩]
  · intro store id u adm app happ hstat hok
    simp only [submit_application, happ]
    rw [hstat]
    rw [if_neg (fun hne => hne rfl)]
    rw [if_neg ?hcond]
    case hcond =>
      intro hcon
      rcases hok with he | he
      · exact hcon.1 he
      · rw [he] at hcon
        exact Bool.noConfusion hcon.2
    rfl
  · intro store id u app u2 adm2 happ
    have hget2 : get_by_id
        ({ replace_app store { app with
             status := .PENDING, current_stage := .PENDING_APPROVAL,
             is_editable := false } with
           audits := store.audits ++
             [{ request_type := "SUBMIT", app_id := id, user_email := u,
                action := "Submitted request " ++ app.app_code ++ " for approval",
                details := some ("Request moved to pending approval") }],
           timeline := store.timeline ++
             [{ app_id := id, stage := .PENDING_APPROVAL, status := "IN_PROGRESS",
                message := some ("Request submitted for approval"),
                performed_by := some u }] })
        id = some { app with
                    status := .PENDING, current_stage := .PENDING_APPROVAL,
                    is_editable := false } :=
      find?_map_replace store.apps id app _ happ rfl
    simp only [submit_application, hget2]
    rfl

/-- Witness for the C8 theorem at the sample draft store. -/
theorem submit_application_contract_witness :
    submit_application draftStore 99 ("alice@example.com") false
        = .error (.valueError ("Application " ++ natToString 99 ++ " not found"))
    ∧ submit_application pendingStore 1 ("alice@example.com") false
        = .error (.valueError ("Only draft requests can be submitted for approval"))
    ∧ submit_application draftStore 1 ("bob@example.com") false
        = .error (.permissionError ("You are not authorized to submit this request"))
    ∧ (submit_application draftStore 1 ("alice@example.com") false).map
        (fun p => (p.2.status, p.2.current_stage, p.2.is_editable))
        = Except.ok (RequestStatus.PENDING, WorkflowStage.PENDING_APPROVAL, false)
    ∧ submit_application (okServiceStore (submit_application draftStore 1
        ("alice@example.com") false)) 1 ("alice@example.com") false
        = .error (.valueError ("Only draft requests can be submitted for approval")) := by
  refine ⟨?_, ?_, ?_, ?_, ?_⟩
  · exact submit_application_contract.1 draftStore 99 ("alice@example.com") false
      (by decide)
  · exact submit_application_contract.2.1 pendingStore 1 ("alice@example.com") false
      pendingApp (by decide) (by decide)
  · exact submit_application_contract.2.2.1 draftStore 1 ("bob@example.com") draftApp
      (by decide) (by decide) (by decide)
  · rw [submit_application_contract.2.2.2.1 draftStore 1 ("alice@example.com") false
      draftApp (by decide) (by decide) (Or.inl (by decide))]
    rfl
  · rw [submit_application_contract.2.2.2.1 draftStore 1 ("alice@example.com") false
      draftApp (by decide) (by decide) (Or.inl (by decide))]
    exact submit_application_contract.2.2.2.2 draftStore 1 ("alice@example.com")
      draftApp ("alice@example.com") false (by decide)

/-- `setattr` never touches `app_code` for a key other than `"app_code"`. -/
theorem set_model_field_app_code (app : Application) (key : String) (value : PyValue)
    (h : key ≠ "app_code") : (set_model_field app key value).app_code = app.app_code := by
  unfold set_model_field
  by_cases h1 : key = "request_type"
  · rw [if_pos h1]; cases value <;> rfl
  · rw [if_neg h1]
    by_cases h2 : key = "app_code"
    · exact absurd h2 h
    · rw [if_neg h2]
      by_cases h3 : key = "app_slug"
      · rw [if_pos h3]; cases value <;> rfl
      · rw [if_neg h3]
        by_cases h4 : key = "application_name"
        · rw [if_pos h4]; cases value <;> rfl
        · rw [if_neg h4]
          by_cases h5 : key = "organization"
          · rw [if_pos h5]; cases value <;> rfl
          · rw [if_neg h5]
            by_cases h6 : key = "lob"
            · rw [if_pos h6]; cases value <;> rfl
            · rw [if_neg h6]
              by_cases h7 : key = "platform"
              · rw [if_pos h7]; cases value <;> rfl
              · rw [if_neg h7]
                by_cases h8 : key = "status"
                · rw [if_pos h8]; cases value <;> rfl
                · rw [if_neg h8]
                  by_cases h9 : key = "current_stage"
                  · rw [if_pos h9]; cases value <;> rfl
                  · rw [if_neg h9]
                    by_cases h10 : key = "requested_by"
                    · rw [if_pos h10]; cases value <;> rfl
                    · rw [if_neg h10]
                      by_cases h11 : key = "approved_by"
                      · rw [if_pos h11]; cases value <;> rfl
                      · rw [if_neg h11]
                        by_cases h12 : key = "rejection_reason"
                        · rw [if_pos h12]; cases value <;> rfl
                        · rw [if_neg h12]
                          by_cases h13 : key = "is_editable"
                          · rw [if_pos h13]; cases value <;> rfl
                          · rw [if_neg h13]

/-- `setattr` never touches `requested_by` for a key other than
`"requested_by"`. -/
theorem set_model_field_requested_by (app : Application) (key : String) (value : PyValue)
    (h : key ≠ "requested_by") :
    (set_model_field app key value).requested_by = app.requested_by := by
  unfold set_model_field
  by_cases h1 : key = "request_type"
  · rw [if_pos h1]; cases value <;> rfl
  · rw [if_neg h1]
    by_cases h2 : key = "app_code"
    · rw [if_pos h2]; cases value <;> rfl
    · rw [if_neg h2]
      by_cases h3 : key = "app_slug"
      · rw [if_pos h3]; cases value <;> rfl
      · rw [if_neg h3]
        by_cases h4 : key = "application_name"
        · rw [if_pos h4]; cases value <;> rfl
        · rw [if_neg h4]
          by_cases h5 : key = "organization"
          · rw [if_pos h5]; cases value <;> rfl
          · rw [if_neg h5]
            by_cases h6 : key = "lob"
            · rw [if_pos h6]; cases value <;> rfl
            · rw [if_neg h6]
              by_cases h7 : key = "platform"
              · rw [if_pos h7]; cases value <;> rfl
              · rw [if_neg h7]
                by_cases h8 : key = "status"
                · rw [if_pos h8]; cases value <;> rfl
                · rw [if_neg h8]
                  by_cases h9 : key = "current_stage"
                  · rw [if_pos h9]; cases value <;> rfl
                  · rw [if_neg h9]
                    by_cases h10 : key = "requested_by"
                    · exact absurd h10 h
                    · rw [if_neg h10]
                      by_cases h11 : key = "approved_by"
                      · rw [if_pos h11]; cases value <;> rfl
                      · rw [if_neg h11]
                        by_cases h12 : key = "rejection_reason"
                        · rw [if_pos h12]; cases value <;> rfl
                        · rw [if_neg h12]
                          by_cases h13 : key = "is_editable"
                          · rw [if_pos h13]; cases value <;> rfl
                          · rw [if_neg h13]

/-- The field-update loop never touches `app_code`: the key is on the skip
list of `update_application`. -/
theorem apply_update_fields_app_code :
    ∀ (data : List (String × PyValue)) (app : Application),
      (apply_update_fields app data).app_code = app.app_code
  | [], _ => rfl
  | (key, value) :: rest, app => by
    unfold apply_update_fields
    split
    · exact apply_update_fields_app_code rest app
    · split
      next hcond =>
        rw [apply_update_fields_app_code rest _]
        exact set_model_field_app_code app key value hcond.2.2.1
      next => exact apply_update_fields_app_code rest app

/-- The field-update loop keeps `requested_by` when the payload has no
`requested_by` key. -/
theorem apply_update_fields_requested_by :
    ∀ (data : List (String × PyValue)) (app : Application),
      data_has_key data ("requested_by") = false →
      (apply_update_fields app data).requested_by = app.requested_by
  | [], _, _ => rfl
  | (key, value) :: rest, app, h => by
    have hpair := h
    unfold data_has_key at hpair
    rw [List.any_cons] at hpair
    have hhead : (key == "requested_by") = false :=
      (Bool.or_eq_false_iff.mp hpair).1
    have hrest : data_has_key rest ("requested_by") = false :=
      (Bool.or_eq_false_iff.mp hpair).2
    have hne : key ≠ "requested_by" := by
      intro hcontra
      rw [hcontra] at hhead
      simp at hhead
    unfold apply_update_fields
    split
    · exact apply_update_fields_requested_by rest app hrest
    · split
      next hcond =>
        rw [apply_update_fields_requested_by rest _ hrest]
        exact set_model_field_requested_by app key value hne
      next => exact apply_update_fields_requested_by rest app hrest

/-- C9, counterexample: the field-update loop of `update_application`
protects only `id`, `app_code` and `created_at`, not `requested_by`; a
successful admin update whose payload carries a `requested_by` key rewrites
the requester email, against the claimed immutability. -/
theorem update_requested_by_counterexample :
    (get_by_id draftStore 1).map (fun a => a.requested_by)
        = some ("alice@example.com")
    ∧ (update_application draftStore 1
        [("requested_by", PyValue.pstr ("mallory@example.com"))]
        ("admin@example.com") true).map (fun p => p.2.requested_by)
        = Except.ok ("mallory@example.com") := by
  decide

/-- C9, amended: a successful update never changes `app_code` (it is on the
skip list together with `id` and `created_at`), and it leaves `requested_by`
unchanged whenever the update payload carries no `requested_by` key — but a
payload that does carry one rewrites the requester email. -/
theorem update_application_amended :
    ∀ (store : Store) (id : Nat) (data : List (String × PyValue)) (u : String)
      (adm : Bool) (store2 : Store) (app2 : Application) (app : Application),
      update_application store id data u adm = .ok (store2, app2) →
      get_by_id store id = some app →
      app2.app_code = app.app_code
      ∧ (data_has_key data ("requested_by") = false →
          app2.requested_by = app.requested_by) := by
  intro store id data u adm store2 app2 app h happ
  simp only [update_application, happ] at h
  split at h
  · exact Except.noConfusion h
  · split at h
    · exact Except.noConfusion h
    · injection Except.ok.inj h with hs ha
      constructor
      · rw [← ha]
        split
        · exact apply_update_fields_app_code data app
        · split <;> exact apply_update_fields_app_code data app
      · intro hkey
        rw [← ha]
        split
        · exact apply_update_fields_requested_by data app hkey
        · split <;> exact apply_update_fields_requested_by data app hkey

/-- Witness for the amended C9 theorem: updating the sample draft with a
payload that renames the application keeps `app_code` and `requested_by`. -/
theorem update_application_amended_witness :
    (okServiceApp (update_application draftStore 1
        [("application_name", PyValue.pstr ("Acme Portal Two"))]
        ("alice@example.com") false)).app_code = draftApp.app_code
    ∧ (okServiceApp (update_application draftStore 1
        [("application_name", PyValue.pstr ("Acme Portal Two"))]
        ("alice@example.com") false)).requested_by = draftApp.requested_by := by
  have hu := update_application_amended draftStore 1
    [("application_name", PyValue.pstr ("Acme Portal Two"))]
    ("alice@example.com") false
    (okServiceStore (update_application draftStore 1
      [("application_name", PyValue.pstr ("Acme Portal Two"))]
      ("alice@example.com") false))
    (okServiceApp (update_application draftStore 1
      [("application_name", PyValue.pstr ("Acme Portal Two"))]
      ("alice@example.com") false))
    draftApp (by rfl) (by decide)
  exact ⟨hu.1, hu.2 (by decide)⟩

end Portal
